import Mathlib

set_option maxRecDepth 4000

/-!
Verification of the remem-memory checkpoint/rollup automation
(`plugins/remem-memory/scripts/auto_memory_hook.py` and
`scripts/remem_codex_wrapper.py`) against its natural-language
specification.

The Python source is shallowly embedded: pure helpers become Lean
functions over `List Char`-backed strings, JSON values become the
inductive `JVal`, fallible paths become `Option`, and external effects
(filesystem reads, the network, subprocess LLM calls, `json.loads` of
the standard library, `git`) become explicit parameters.  Machine
`float` timestamps are modelled as rationals; Python `int` as `Int`.
-/

namespace RememMemory

/-! ## String primitives (Python `str` operations, modelled on `List Char`) -/

/-- Python `str.strip()` (whitespace from both ends). -/
def pyStrip (s : String) : String :=
  String.mk (((s.data.dropWhile Char.isWhitespace).reverse.dropWhile Char.isWhitespace).reverse)

/-- Python `str.lower()` (ASCII model). -/
def pyLower (s : String) : String :=
  String.mk (s.data.map Char.toLower)

/-- Python `str.strip(chars)` for a single strip character. -/
def pyStripChar (c : Char) (s : String) : String :=
  String.mk (((s.data.dropWhile (· = c)).reverse.dropWhile (· = c)).reverse)

/-- Python `str.lstrip("\n")`. -/
def pyLstripNewline (s : String) : String :=
  String.mk (s.data.dropWhile (· = '\n'))

/-- Python `sep.join(xs)`. -/
def joinSep (sep : String) : List String → String
  | [] => ""
  | [x] => x
  | x :: y :: xs => x ++ sep ++ joinSep sep (y :: xs)

/-- Python `s.split()` (split on whitespace runs, no empty pieces).
Helper: accumulate the current word while scanning. -/
def pyWordsAux (cur : List Char) : List Char → List (List Char)
  | [] => if cur.isEmpty then [] else [cur.reverse]
  | c :: cs =>
    if Char.isWhitespace c then
      if cur.isEmpty then pyWordsAux [] cs else cur.reverse :: pyWordsAux [] cs
    else
      pyWordsAux (c :: cur) cs

/-- Python `s.split()`. -/
def pyWords (s : String) : List String :=
  (pyWordsAux [] s.data).map String.mk

/-- Python `" ".join(s.split())` — whitespace normalization used by `_sanitize_items`. -/
def normalizeWs (s : String) : String :=
  joinSep " " (pyWords s)

/-- Python `s.split(c)` (keeps empty pieces), used for `_slug` and `splitlines`. -/
def splitCharAux (c : Char) (cur : List Char) : List Char → List (List Char)
  | [] => [cur.reverse]
  | d :: ds => if d = c then cur.reverse :: splitCharAux c [] ds else splitCharAux c (d :: cur) ds

/-- Python `s.split(c)` on a single-character separator. -/
def splitChar (c : Char) (s : String) : List String :=
  (splitCharAux c [] s.data).map String.mk

/-- Last `n` characters of a string: Python `s[-n:]` (for `0 < n`). -/
def takeRightStr (n : Nat) (s : String) : String :=
  String.mk (s.data.drop (s.data.length - n))

/-- First `n` characters: Python `s[:n]`. -/
def takeLeftStr (n : Nat) (s : String) : String :=
  String.mk (s.data.take n)

/-- Python `s[n:]`. -/
def dropStr (n : Nat) (s : String) : String :=
  String.mk (s.data.drop n)

/-- Python `s[a:b]`. -/
def sliceStr (a b : Nat) (s : String) : String :=
  String.mk ((s.data.take b).drop a)

/-- Index of the first occurrence of `needle` in a character list
(Python `str.find`, with `none` for `-1`). -/
def firstSubIdx (needle : List Char) : List Char → Option Nat
  | [] => if needle.isEmpty then some 0 else none
  | c :: cs =>
    if List.isPrefixOf needle (c :: cs) then some 0
    else (firstSubIdx needle cs).map (· + 1)

/-- Python `hay.find(needle)` as an `Option`. -/
def pyFind (needle hay : String) : Option Nat :=
  firstSubIdx needle.data hay.data

/-- Python `needle in hay`. -/
def pyContains (needle hay : String) : Bool :=
  (pyFind needle hay).isSome

/-- Python `hay.startswith(pre)`. -/
def pyStartsWith (pre hay : String) : Bool :=
  List.isPrefixOf pre.data hay.data

/-- Python `s.find(c)` for one character. -/
def pyFindChar (c : Char) (s : String) : Option Nat :=
  s.data.findIdx? (· = c)

/-- Python `s.rfind(c)` for one character. -/
def pyRfindChar (c : Char) (s : String) : Option Nat :=
  (s.data.reverse.findIdx? (· = c)).map (fun i => s.data.length - 1 - i)

/-- Remove every occurrence of a character (Python `s.replace(c, "")`). -/
def removeChar (c : Char) (s : String) : String :=
  String.mk (s.data.filter (· ≠ c))

/-- Python `lst[-n:]` on lists. -/
def takeLast (n : Nat) (l : List α) : List α :=
  l.drop (l.length - n)

/-! Length lemmas for the string primitives. -/

theorem length_dropWhile_le (p : α → Bool) (l : List α) :
    (l.dropWhile p).length ≤ l.length := by
  induction l with
  | nil => simp
  | cons a l ih =>
    by_cases h : p a
    · simp only [List.dropWhile, h]
      exact Nat.le_succ_of_le ih
    · simp [List.dropWhile, h]

theorem pyStrip_length_le (s : String) : (pyStrip s).length ≤ s.length := by
  show (((s.data.dropWhile _).reverse.dropWhile _).reverse).length ≤ s.data.length
  rw [List.length_reverse]
  calc ((s.data.dropWhile _).reverse.dropWhile _).length
      ≤ (s.data.dropWhile Char.isWhitespace).reverse.length := length_dropWhile_le _ _
    _ = (s.data.dropWhile Char.isWhitespace).length := List.length_reverse _
    _ ≤ s.data.length := length_dropWhile_le _ _

theorem takeRightStr_length_le (n : Nat) (s : String) : (takeRightStr n s).length ≤ n := by
  show (s.data.drop (s.data.length - n)).length ≤ n
  rw [List.length_drop]
  omega

theorem dropStr_length_le (n : Nat) (s : String) : (dropStr n s).length ≤ s.length := by
  show (s.data.drop n).length ≤ s.data.length
  rw [List.length_drop]
  omega

theorem takeLast_length_le (n : Nat) (l : List α) : (takeLast n l).length ≤ n := by
  show (l.drop (l.length - n)).length ≤ n
  rw [List.length_drop]
  omega

/-! ## JSON values

Model of the values produced by Python's `json.loads`.  The parser of
the standard library itself is external third-party code; where the
source calls it, the embedding takes the parse outcome as input
(`Option JVal`, with `none` standing for `json.JSONDecodeError`). -/

/-- A parsed JSON value. -/
inductive JVal where
  | null : JVal
  | bool : Bool → JVal
  | num : ℚ → JVal
  | str : String → JVal
  | arr : List JVal → JVal
  | obj : List (String × JVal) → JVal

/-- Python `d.get(k)` on a parsed JSON object (last duplicate key wins,
as in `json.loads`). -/
def jget (fields : List (String × JVal)) (k : String) : Option JVal :=
  (fields.reverse.find? (fun p => p.1 = k)).map Prod.snd

/-- Python `v == s` for a JSON value against a `str` literal. -/
def jvalIsStr (v : JVal) (s : String) : Bool :=
  match v with
  | .str t => t = s
  | _ => false

/-- Python truthiness of a JSON value (`bool(v)`). -/
def jTruthy (v : JVal) : Bool :=
  match v with
  | .null => false
  | .bool b => b
  | .num q => q ≠ 0
  | .str s => s ≠ ""
  | .arr xs => ¬xs.isEmpty
  | .obj fs => ¬fs.isEmpty

/-- Python `for value in (x or [])` over a JSON value: the list of
iterated elements, or `none` when iteration raises `TypeError`
(numbers, `True`).  Falsy values give the empty iteration; strings
iterate over their characters; objects iterate over their keys. -/
def pyIterOrEmpty (x : Option JVal) : Option (List JVal) :=
  match x with
  | none => some []
  | some v =>
    if ¬jTruthy v then some []
    else match v with
      | .arr xs => some xs
      | .str s => some (s.data.map (fun c => JVal.str (String.mk [c])))
      | .obj fs => some (fs.map (fun p => JVal.str p.1))
      | _ => none

/-! ## `_dedupe` and `_sanitize_items` -/

/-- Embedding of `_dedupe` (auto_memory_hook.py:246): strip each item,
drop empties and anything already seen, keep first-seen order.  `seen`
carries the set of already-emitted keys. -/
def dedupeAux (seen : List String) : List String → List String
  | [] => []
  | x :: xs =>
    let key := pyStrip x
    if key = "" ∨ key ∈ seen then dedupeAux seen xs
    else key :: dedupeAux (key :: seen) xs

/-- Embedding of `_dedupe(items)`. -/
def dedupe (items : List String) : List String :=
  dedupeAux [] items

/-- De-duplication by exact string match keeping the first occurrence,
in first-seen order — the consolidation rule as the specification words
it ("de-duplicate by exact string match preserving first-seen order"). -/
def firstSeenAux (seen : List String) : List String → List String
  | [] => []
  | x :: xs =>
    if x ∈ seen then firstSeenAux seen xs
    else x :: firstSeenAux (x :: seen) xs

/-- Exact-match first-seen de-duplication (specification-side definition). -/
def firstSeenDedupe (items : List String) : List String :=
  firstSeenAux [] items

/-- Collection loop of `_sanitize_items` (auto_memory_hook.py:258):
whitespace-normalize each string item, skip non-strings and empties,
and stop as soon as `limit` items have been collected (Python appends
and then breaks once `len(out) >= limit`). -/
def sanitizeCollect (limit : Int) (collected : Nat) : List JVal → List String
  | [] => []
  | v :: vs =>
    match v with
    | .str s =>
      let cleaned := normalizeWs s
      if cleaned = "" then sanitizeCollect limit collected vs
      else if ((collected : Int) + 1) ≥ limit then [cleaned]
      else cleaned :: sanitizeCollect limit (collected + 1) vs
    | _ => sanitizeCollect limit collected vs

/-- Embedding of `_sanitize_items(items, limit=...)`: truncate to `limit` items first,
then `_dedupe` the result. -/
def sanitizeItems (items : Option JVal) (limit : Int) : List String :=
  match items with
  | some (.arr xs) => dedupe (sanitizeCollect limit 0 xs)
  | _ => []

/-! ## Trigger policy: `_should_interval_checkpoint` (auto_memory_hook.py:1179)

Timestamps (`time.time()` floats) are modelled as rationals; the two
configured thresholds come through `_int_env` and are `Int`s. -/

/-- Embedding of `_should_interval_checkpoint`: `eventsSince` is
`int(state.get("events_since_checkpoint") or 0)`, `lastEpoch` is
`float(state.get("last_checkpoint_epoch") or 0.0)`, `now` is
`_utc_now().timestamp()`. -/
def shouldIntervalCheckpoint (eventsSince : Int) (lastEpoch now : ℚ)
    (minEvents intervalSeconds : Int) : Bool :=
  if eventsSince < minEvents then false
  else if lastEpoch ≤ 0 then true
  else decide (now - lastEpoch ≥ (intervalSeconds : ℚ)) || decide (eventsSince ≥ minEvents * 2)

/-- The trigger condition exactly as the claim words it: at least
`min_events` events, and (no checkpoint ever, or elapsed time strictly
exceeds `interval_seconds`, or the burst valve at `2 × min_events`). -/
def claimedIntervalTrigger (eventsSince : Int) (lastEpoch now : ℚ)
    (minEvents intervalSeconds : Int) : Prop :=
  eventsSince ≥ minEvents ∧
    (lastEpoch ≤ 0 ∨ now - lastEpoch > (intervalSeconds : ℚ) ∨ eventsSince ≥ 2 * minEvents)

instance (e : Int) (l n : ℚ) (m i : Int) :
    Decidable (claimedIntervalTrigger e l n m i) := by
  unfold claimedIntervalTrigger
  infer_instance

/-! ## Checkpoint state store: `_default_state` / `_load_state`
(auto_memory_hook.py:158,171)

The persisted file holds a JSON document; `_load_state`'s case analysis
over the file's raw content — missing file, `OSError` on read, bytes
that are not valid UTF-8, `json.JSONDecodeError`, a non-dict JSON
value, a dict — is modelled by `StoredState`.  Only `OSError` and
`json.JSONDecodeError` are caught in the source; the `UnicodeDecodeError`
that `path.read_text(encoding="utf-8")` raises on non-UTF-8 bytes
escapes the function, so `loadState` returns `Option JState` with
`none` standing for the uncaught exception.  The state dict is modelled
field-wise with raw `JVal` values, since the file can hold values of
any type. -/

/-- The session-state dict: the eight keys written by `_default_state`,
with raw JSON values (a corrupt file can store anything). -/
structure JState where
  session_id : JVal
  project : JVal
  last_checkpoint_epoch : JVal
  events_since_checkpoint : JVal
  recent_events : JVal
  checkpoints_created : JVal
  last_rollup_epoch : JVal
  transcript_path : JVal

/-- Embedding of `_default_state(session_id)`. -/
def defaultJState (sessionId : String) : JState :=
  { session_id := .str sessionId
    project := .str ""
    last_checkpoint_epoch := .num 0
    events_since_checkpoint := .num 0
    recent_events := .arr []
    checkpoints_created := .num 0
    last_rollup_epoch := .num 0
    transcript_path := .str "" }

/-- The stored dict as parsed: each known key optionally present.
(Unknown extra keys are irrelevant to every claim and are omitted.) -/
structure ParsedState where
  session_id : Option JVal := none
  project : Option JVal := none
  last_checkpoint_epoch : Option JVal := none
  events_since_checkpoint : Option JVal := none
  recent_events : Option JVal := none
  checkpoints_created : Option JVal := none
  last_rollup_epoch : Option JVal := none
  transcript_path : Option JVal := none

/-- Outcome of reading, UTF-8-decoding and JSON-parsing the state file:
`missing` (`path.exists()` false), `unreadable` (`OSError` on read),
`undecodable` (bytes that are not valid UTF-8, on which
`path.read_text(encoding="utf-8")` raises `UnicodeDecodeError`),
`malformedJson` (`json.JSONDecodeError`), `nonDict` (a JSON value that
is not an object), or a parsed dict. -/
inductive StoredState where
  | missing : StoredState
  | unreadable : StoredState
  | undecodable : StoredState
  | malformedJson : StoredState
  | nonDict : StoredState
  | dict : ParsedState → StoredState

/-- Embedding of `state.update(parsed)` over the default state. -/
def mergeState (base : JState) (d : ParsedState) : JState :=
  { session_id := d.session_id.getD base.session_id
    project := d.project.getD base.project
    last_checkpoint_epoch := d.last_checkpoint_epoch.getD base.last_checkpoint_epoch
    events_since_checkpoint := d.events_since_checkpoint.getD base.events_since_checkpoint
    recent_events := d.recent_events.getD base.recent_events
    checkpoints_created := d.checkpoints_created.getD base.checkpoints_created
    last_rollup_epoch := d.last_rollup_epoch.getD base.last_rollup_epoch
    transcript_path := d.transcript_path.getD base.transcript_path }

/-- Embedding of `_load_state(path, session_id)`: the caught failure
modes (missing file, `OSError`, `json.JSONDecodeError`) and a non-dict
value or session-id mismatch reset to `_default_state`, and a non-list
`recent_events` is coerced to `[]`; a non-UTF-8 file raises an uncaught
`UnicodeDecodeError` (the source's `except` clause at line 176 lists
only `OSError` and `json.JSONDecodeError`), modelled as `none`. -/
def loadState (stored : StoredState) (sessionId : String) : Option JState :=
  match stored with
  | .missing => some (defaultJState sessionId)
  | .unreadable => some (defaultJState sessionId)
  | .undecodable => none
  | .malformedJson => some (defaultJState sessionId)
  | .nonDict => some (defaultJState sessionId)
  | .dict d =>
    let merged := mergeState (defaultJState sessionId) d
    let checked := if jvalIsStr merged.session_id sessionId then merged
                   else defaultJState sessionId
    match checked.recent_events with
    | .arr _ => some checked
    | _ => some { checked with recent_events := .arr [] }

/-! ## Provider selector: `_normalize_provider`, `_provider_available`,
`_select_llm_provider` (auto_memory_hook.py:280,298,310) -/

/-- The parts of the process environment the selector reads: whether the
two CLI executables resolve on the search path (`shutil.which`), and the
two hosted-API credentials. -/
structure ProviderEnv where
  claudeOnPath : Bool
  codexOnPath : Bool
  anthropicApiKey : String
  openaiApiKey : String

/-- Embedding of `_normalize_provider(value)`. -/
def normalizeProvider (value : String) : Option String :=
  let raw := pyLower (pyStrip value)
  if raw = "" then none
  else
    let mapped :=
      if raw = "claude" ∨ raw = "claude-cli" ∨ raw = "claude_cli" then "claude_cli"
      else if raw = "codex" ∨ raw = "codex-cli" ∨ raw = "codex_cli" then "codex_cli"
      else raw
    if mapped = "claude_cli" ∨ mapped = "codex_cli" ∨ mapped = "anthropic" ∨ mapped = "openai"
    then some mapped else none

/-- Embedding of `_provider_available(provider)`. -/
def providerAvailable (env : ProviderEnv) (provider : String) : Bool :=
  if provider = "claude_cli" then env.claudeOnPath
  else if provider = "codex_cli" then env.codexOnPath
  else if provider = "anthropic" then pyStrip env.anthropicApiKey ≠ ""
  else if provider = "openai" then pyStrip env.openaiApiKey ≠ ""
  else false

/-- The auto-detection precedence list of `_select_llm_provider`. -/
def providerOrder : List String :=
  ["claude_cli", "codex_cli", "anthropic", "openai"]

/-- Embedding of `_select_llm_provider()`; `forcedRaw` is the value of
`REMEM_MEMORY_SUMMARY_PROVIDER` (`""` when unset). -/
def selectLlmProvider (env : ProviderEnv) (forcedRaw : String) : Option String :=
  match normalizeProvider forcedRaw with
  | some forced => if providerAvailable env forced then some forced else none
  | none => providerOrder.find? (providerAvailable env)

/-! ## Transcript excerptor, turn-based path
(`_read_transcript_excerpt`, auto_memory_hook.py:380)

A transcript is a line-oriented file.  Blank lines and lines that fail
`json.loads` are observably identical (both are skipped), so a file is
modelled as the per-line parse outcomes.  Reading the file itself can
fail (missing path or `OSError`). -/

/-- Outcome of opening and line-parsing a transcript file. -/
inductive FileAccess where
  | absentPath : FileAccess
  | readError : FileAccess
  | lines : List (Option JVal) → FileAccess

/-- Python `a or b` over two optional JSON values
(`tool_input.get("file_path") or tool_input.get("path")`). -/
def pyOrJ (a b : Option JVal) : Option JVal :=
  match a with
  | some v => if jTruthy v then some v else b
  | none => b

/-- Embedding of `_extract_text_from_content(content)` (auto_memory_hook.py:335). -/
def extractTextFromContent (content : Option JVal) : String :=
  match content with
  | some (.str s) => pyStrip s
  | some (.arr items) =>
    let parts := items.filterMap (fun item =>
      match item with
      | .obj f =>
        if (jget f "type").any (jvalIsStr · "text") then
          match jget f "text" with
          | some (.str t) =>
            let t' := pyStrip t
            if t' = "" then none else some t'
          | _ => none
        else none
      | _ => none)
    pyStrip (joinSep "\n" parts)
  | some (.obj f) =>
    if (jget f "type").any (jvalIsStr · "text") then
      match jget f "text" with
      | some (.str t) => pyStrip t
      | _ => ""
    else ""
  | _ => ""

/-- Embedding of `_summarize_tool_use_items(items)` (auto_memory_hook.py:354). -/
def summarizeToolUseItems (items : List JVal) : List String :=
  items.filterMap (fun item =>
    match item with
    | .obj f =>
      if (jget f "type").any (jvalIsStr · "tool_use") then
        match jget f "name" with
        | some (.str name) =>
          if pyStrip name = "" then none
          else
            let toolInput : List (String × JVal) :=
              match jget f "input" with
              | some (.obj o) => o
              | _ => []
            if name = "Bash" then
              match jget toolInput "command" with
              | some (.str cmd) =>
                if pyStrip cmd = "" then some (pyStrip name)
                else
                  let c := normalizeWs (pyStrip cmd)
                  some ("Bash " ++ takeLeftStr 180 c ++ (if c.length > 180 then "..." else ""))
              | _ => some (pyStrip name)
            else
              match pyOrJ (jget toolInput "file_path") (jget toolInput "path") with
              | some (.str p) =>
                if pyStrip p = "" then some (pyStrip name)
                else some (name ++ " " ++ pyStrip p)
              | _ => some (pyStrip name)
        | _ => none
      else none
    | _ => none)

/-- Per-line turn extraction of `_read_transcript_excerpt`
(auto_memory_hook.py:420-467): `none` means the line is skipped. -/
def turnOfLine (line : Option JVal) : Option String :=
  match line with
  | none => none
  | some (JVal.obj fields) =>
    let rowIsUser := (jget fields "type").any (jvalIsStr · "user")
    let rowIsAssistant := (jget fields "type").any (jvalIsStr · "assistant")
    if ¬(rowIsUser ∨ rowIsAssistant) then none
    else
      match jget fields "message" with
      | some (.obj m) =>
        if rowIsAssistant ∧ ¬((jget m "role").any (jvalIsStr · "assistant")) then none
        else if rowIsUser ∧ ¬((jget m "role").any (jvalIsStr · "user")) then none
        else
          let content := jget m "content"
          let text := extractTextFromContent content
          let text :=
            match content with
            | some (.arr xs) =>
              if xs.any (fun x =>
                  match x with
                  | .obj xf => (jget xf "type").any (jvalIsStr · "tool_result")
                  | _ => false)
              then "" else text
            | _ => text
          let text :=
            match content with
            | some (.arr xs) =>
              if rowIsAssistant then
                if text = "" then
                  let sums := summarizeToolUseItems xs
                  if sums.isEmpty then text
                  else pyStrip (joinSep "\n" ((sums.take 3).map (fun s => "[tool] " ++ s)))
                else
                  match summarizeToolUseItems xs with
                  | [] => text
                  | s :: _ => pyStrip (text ++ "\n[tool] " ++ s)
              else text
            | _ => text
          if text = "" then none
          else
            let lowered := pyLower text
            if pyContains "<local-command-caveat>" lowered ∨
               pyContains "<local-command-stdout>" lowered then none
            else some ((if rowIsUser then "User" else "Assistant") ++ ": " ++ text)
      | _ => none
  | some _ => none

/-- Cut realignment of both excerptors: after the character cut, drop
up to the next `"User: "` marker when one occurs at a positive offset
(`cut = excerpt.find("User: "); if cut > 0: excerpt = excerpt[cut:]`). -/
def capCutAdjust (e : String) : String :=
  match pyFind "User: " e with
  | some cut => if cut > 0 then dropStr cut e else e
  | none => e

/-- Final character cap of both excerptors: take the last `maxChars`
characters and realign the cut to the start of a user turn. -/
def capUserRealign (maxChars : Nat) (excerpt : String) : String :=
  if excerpt.length > maxChars then capCutAdjust (takeRightStr maxChars excerpt)
  else excerpt

/-- Embedding of `_read_transcript_excerpt(transcript_path)`.  The four
budget arguments are the `_int_env` results for
`REMEM_MEMORY_SUMMARY_{HEAD_LINES,TAIL_LINES,MAX_MESSAGES,MAX_CHARS}`. -/
def readTranscriptExcerpt (file : FileAccess)
    (rawHeadLines rawTailLines rawMaxMessages rawMaxChars : Int) : String :=
  match file with
  | .absentPath => ""
  | .readError => ""
  | .lines ls =>
    let headL : Nat := (max 0 rawHeadLines).toNat
    let tailL : Nat := (max 0 rawTailLines).toNat
    let maxMessages : Nat := (max 1 rawMaxMessages).toNat
    let maxChars : Nat := (max 500 rawMaxChars).toNat
    let totalLines := ls.length
    if totalLines = 0 then ""
    else
      let head := ls.take headL
      let tailList := if tailL > 0 then takeLast tailL ls else []
      let combined :=
        if tailList.isEmpty ∨ totalLines ≤ headL then head
        else
          let tailStart := totalLines - tailL
          let overlap := headL - tailStart
          head ++ tailList.drop overlap
      let turns := takeLast maxMessages (combined.filterMap turnOfLine)
      let excerpt := pyStrip (joinSep "\n\n" turns)
      pyStrip (capUserRealign maxChars excerpt)

/-! ## Transcript excerptor, event-stream path
(`_read_codex_transcript_excerpt`, remem_codex_wrapper.py:229) -/

/-- Embedding of `_extract_codex_message_text(content, role=...)`
(remem_codex_wrapper.py:197). -/
def extractCodexMessageText (content : Option JVal) (role : String) : String :=
  match content with
  | some (.str s) => pyStrip s
  | some (.arr items) =>
    let allowed : List String := if role = "user" then ["input_text", "text"] else ["output_text", "text"]
    let parts := items.filterMap (fun item =>
      match item with
      | .obj f =>
        let skipItem : Bool :=
          match jget f "type" with
          | some (.str t) => ¬(allowed.contains t)
          | _ => false
        if skipItem then none
        else
          match jget f "text" with
          | some (.str t) =>
            let t' := pyStrip t
            if t' = "" then none else some t'
          | _ => none
      | _ => none)
    pyStrip (joinSep "\n" parts)
  | _ => ""

/-- Embedding of `_is_noise_user_text(text)` (remem_codex_wrapper.py:216). -/
def isNoiseUserText (text : String) : Bool :=
  let lowered := pyLower text
  if pyContains "# agents.md instructions for " lowered then true
  else if pyContains "<environment_context>" lowered then true
  else if pyContains "<permissions instructions>" lowered then true
  else if pyContains "## superpowers system" lowered ∧ lowered.length > 400 then true
  else false

/-- Per-line turn extraction of the event-stream path
(remem_codex_wrapper.py:250-285). -/
def codexTurnOfLine (line : Option JVal) : Option String :=
  match line with
  | none => none
  | some (JVal.obj fields) =>
    if ¬((jget fields "type").any (jvalIsStr · "response_item")) then none
    else
      let payload : List (String × JVal) :=
        match jget fields "payload" with
        | some (.obj o) => o
        | _ => []
      if (jget payload "type").any (jvalIsStr · "message") then
        let roleIsUser := (jget payload "role").any (jvalIsStr · "user")
        let roleIsAssistant := (jget payload "role").any (jvalIsStr · "assistant")
        if ¬(roleIsUser ∨ roleIsAssistant) then none
        else
          let text := extractCodexMessageText (jget payload "content")
            (if roleIsUser then "user" else "assistant")
          if text = "" then none
          else if roleIsUser ∧ isNoiseUserText text then none
          else some ((if roleIsUser then "User" else "Assistant") ++ ": " ++ text)
      else if (jget payload "type").any (jvalIsStr · "function_call") then
        match jget payload "name" with
        | some (.str name) =>
          if pyStrip name = "" then none
          else
            let snippet := pyStrip name
            let snippet :=
              match jget payload "arguments" with
              | some (.str args) =>
                if pyStrip args = "" then snippet
                else
                  let compact := normalizeWs (pyStrip args)
                  let compact := if compact.length > 180 then takeLeftStr 177 compact ++ "..." else compact
                  snippet ++ " " ++ compact
              | _ => snippet
            some ("[tool] " ++ snippet)
        | _ => none
      else none
  | some _ => none

/-- Scan loop of the event-stream path: append each extracted turn and
trim the running list once it grows past `message_limit * 3`. -/
def codexScan (limitTimes3 limitTimes2 : Nat) (turns : List String) :
    List (Option JVal) → List String
  | [] => turns
  | l :: ls =>
    let turns1 :=
      match codexTurnOfLine l with
      | some t => turns ++ [t]
      | none => turns
    let turns2 := if turns1.length > limitTimes3 then takeLast limitTimes2 turns1 else turns1
    codexScan limitTimes3 limitTimes2 turns2 ls

/-- Embedding of `_read_codex_transcript_excerpt(transcript_path, ...)`.
The budget arguments are the resolved `max_messages` / `max_chars`
values before the in-function floors. -/
def readCodexTranscriptExcerpt (file : FileAccess)
    (rawMaxMessages rawMaxChars : Int) : String :=
  match file with
  | .absentPath => ""
  | .readError => ""
  | .lines ls =>
    let messageLimit : Nat := (max 10 rawMaxMessages).toNat
    let charLimit : Nat := (max 500 rawMaxChars).toNat
    let turns := codexScan (messageLimit * 3) (messageLimit * 2) [] ls
    if turns.isEmpty then ""
    else
      let excerpt := pyStrip (joinSep "\n\n" (takeLast messageLimit turns))
      pyStrip (capUserRealign charLimit excerpt)

/-! ## Response parsing: `_extract_json_object` (auto_memory_hook.py:479)

`jparse` stands for `json.loads` of the Python standard library
(external code): `none` models `json.JSONDecodeError`. -/

/-- The fence-stripping preprocessing of `_extract_json_object`: strip
whitespace, and when the result opens with a markdown code fence strip
all backticks from both ends and re-strip. -/
def fenceCleaned (raw : String) : String :=
  let cleaned := pyStrip raw
  if pyStartsWith "```" cleaned then pyStrip (pyStripChar '`' cleaned) else cleaned

/-- Embedding of `_extract_json_object(raw)`: strip, reject empty, strip
markdown code fences, try a direct parse, and on a parse error fall back
to the `cleaned[first "{" : last "}" + 1]` span; anything that is not a
JSON object yields `none`. -/
def extractJsonObject (jparse : String → Option JVal) (raw : String) :
    Option (List (String × JVal)) :=
  if pyStrip raw = "" then none
  else
    let cleaned := fenceCleaned raw
    match jparse cleaned with
    | some (.obj o) => some o
    | some _ => none
    | none =>
      match pyFindChar '\x7b' cleaned, pyRfindChar '\x7d' cleaned with
      | some s, some e =>
        if e ≤ s then none
        else
          match jparse (sliceStr s (e + 1) cleaned) with
          | some (.obj o) => some o
          | _ => none
      | _, _ => none

/-- The `StructuredSummary` record (auto_memory_hook.py:58). -/
structure StructuredSummary where
  summary : String
  decisions : List String
  open_questions : List String
  next_actions : List String
  provider : String
  model : String

/-- Embedding of `_generate_checkpoint_structured_summary` from the
transcript-excerpt step onward.  External effects are parameters:
`llmEnabled` is `_llm_enabled()`, `file`/budgets feed the embedded
excerptor, and `llmRaw`/`provider`/`model` are the `_prompt_llm`
results (`none` when the backend produced nothing). -/
def generateCheckpointStructuredSummary (jparse : String → Option JVal)
    (llmEnabled : Bool) (transcriptPath : String) (file : FileAccess)
    (rawHeadLines rawTailLines rawMaxMessages rawMaxChars : Int)
    (llmRaw : Option String) (provider model : String) : Option StructuredSummary :=
  if ¬llmEnabled ∨ transcriptPath = "" then none
  else
    let excerpt := readTranscriptExcerpt file rawHeadLines rawTailLines rawMaxMessages rawMaxChars
    if excerpt = "" then none
    else
      match llmRaw with
      | none => none
      | some raw =>
        if raw = "" ∨ provider = "" ∨ model = "" then none
        else
          match extractJsonObject jparse raw with
          | none => none
          | some parsed =>
            if parsed.isEmpty then none
            else
              match jget parsed "summary" with
              | some (.str s) =>
                if pyStrip s = "" then none
                else some
                  { summary := pyStrip s
                    decisions := sanitizeItems (jget parsed "decisions") 10
                    open_questions := sanitizeItems (jget parsed "open_questions") 10
                    next_actions := sanitizeItems (jget parsed "next_actions") 10
                    provider := provider
                    model := model }
              | _ => none

/-! ## Ingestion gateway: `_ingest` (auto_memory_hook.py:1115) -/

/-- What the remote endpoint can deliver once a request is attempted. -/
inductive NetOutcome where
  | emptyBody : NetOutcome
  | jsonBody : JVal → NetOutcome
  | malformedBody : NetOutcome
  | httpError : Nat → NetOutcome
  | transportError : NetOutcome

/-- Embedding of `_ingest(config, payload)`.  The first component
records whether a network request was issued at all; the second is the
returned response (`none` for Python `None`).  A 2xx empty body yields
`{"ok": true}`; a 2xx unparsable body raises `json.JSONDecodeError`,
which the broad `except` turns into `None`; `HTTPError` (non-2xx) and
any transport error are logged and yield `None`. -/
def ingest (apiKey : String) (net : NetOutcome) : Bool × Option JVal :=
  if apiKey = "" then (false, none)
  else
    (true,
      match net with
      | .emptyBody => some (.obj [("ok", .bool true)])
      | .jsonBody v => some v
      | .malformedBody => none
      | .httpError _ => none
      | .transportError => none)

/-! ## Checkpoint builder: `_slug`, `_build_checkpoint_payload`,
`_persist_checkpoint` (auto_memory_hook.py:76,849,1140) -/

/-- Embedding of `_slug(value)` (ASCII model of `str.isalnum`). -/
def slug (value : String) : String :=
  let lowered := pyLower (pyStrip value)
  let cleaned := String.mk (lowered.data.map (fun ch =>
    if ch.isAlphanum ∨ ch = '.' ∨ ch = '_' ∨ ch = '-' then ch else '-'))
  let collapsed := joinSep "-" ((splitChar '-' cleaned).filter (· ≠ ""))
  let capped := takeLeftStr 120 collapsed
  if capped = "" then "unknown" else capped

/-- An activity event as produced by `_extract_tool_event`
(auto_memory_hook.py:215). -/
structure ToolEvent where
  timestamp : String
  tool : String
  summary : String
  files : List String

/-- The metadata map of a checkpoint document. -/
structure CheckpointMeta where
  project : String
  session_id : String
  checkpoint_kind : String
  timestamp : String
  repo_root : String
  files_touched : List String
  summary : String
  decisions : List String
  open_questions : List String
  next_actions : List String
  tags : List String
  automation : String
  hook_event : String
  llm_summary : Option (String × String)

/-- A built checkpoint document (the dict returned by
`_build_checkpoint_payload`). -/
structure CheckpointPayload where
  title : String
  content : String
  metadata : CheckpointMeta
  source : String
  source_id : String
  source_path : String
  mime_type : String
  return_id : Bool

/-- A markdown bullet section emitted only when non-empty. -/
def mdSection (header : String) (items : List String) : List String :=
  if items.isEmpty then [] else [header] ++ items.map (fun item => "- " ++ item) ++ [""]

/-- The deterministic templated summary sentence of
`_build_checkpoint_payload` (auto_memory_hook.py:870-879), used when no
structured summary is available. -/
def templatedSummary (kind hookEvent : String) (filesTouched : List String)
    (eventsSinceCheckpoint : Int) : String :=
  let filesPart := if filesTouched.isEmpty then "none" else joinSep ", " (filesTouched.take 5)
  if eventsSinceCheckpoint > 0 then
    "Automatic " ++ kind ++ " checkpoint after " ++ toString eventsSinceCheckpoint ++
      " tool events. Recent files: " ++ filesPart ++ "."
  else
    "Automatic " ++ kind ++ " checkpoint triggered by " ++ hookEvent ++
      ". Recent files: " ++ filesPart ++ "."

/-- Embedding of `_build_checkpoint_payload`.  `structured` is the
result of `_generate_checkpoint_structured_summary` (its external parts
are already parameters there), `branch` is `_git_branch(config.cwd)`,
and `timestamp` is `_utc_now_iso()`. -/
def buildCheckpointPayload (project sessionId cwd kind hookEvent : String)
    (recentEvents : List ToolEvent) (eventsSinceCheckpoint : Int)
    (structured : Option StructuredSummary) (branch : Option String)
    (timestamp : String) : CheckpointPayload :=
  let projectSlug := slug project
  let sessionSlug := slug sessionId
  let files_touched := dedupe (recentEvents.flatMap (fun e => e.files))
  let recent_activity := (dedupe (recentEvents.map (fun e => pyStrip e.summary))).take 8
  let summaryText :=
    match structured with
    | some st => st.summary
    | none => templatedSummary kind hookEvent files_touched eventsSinceCheckpoint
  let decisions := match structured with | some st => st.decisions | none => []
  let openQuestions := match structured with | some st => st.open_questions | none => []
  let nextActions := match structured with | some st => st.next_actions | none => []
  let lines :=
    ["# Coding Session Checkpoint (Auto)",
     "- Project: " ++ project,
     "- Session: " ++ sessionId,
     "- Kind: " ++ kind,
     "- Timestamp: " ++ timestamp,
     "- Branch: " ++ branch.getD "unknown",
     "- Repo: " ++ cwd,
     "- Trigger: " ++ hookEvent,
     "",
     "## Summary",
     summaryText,
     ""]
    ++ mdSection "## Files Touched" files_touched
    ++ mdSection "## Recent Activity" recent_activity
    ++ mdSection "## Decisions" decisions
    ++ mdSection "## Open Questions" openQuestions
    ++ mdSection "## Next Actions" nextActions
  let sourceId := takeLeftStr 200 (removeChar '-' (removeChar ':'
    ("auto-checkpoint:" ++ projectSlug ++ ":" ++ sessionSlug ++ ":" ++ kind ++ ":" ++ timestamp)))
  { title := project ++ " | " ++ sessionId ++ " | " ++ kind ++ " checkpoint (auto)"
    content := pyStrip (joinSep "\n" lines)
    metadata :=
      { project := project
        session_id := sessionId
        checkpoint_kind := kind
        timestamp := timestamp
        repo_root := cwd
        files_touched := files_touched
        summary := summaryText
        decisions := decisions
        open_questions := openQuestions
        next_actions := nextActions
        tags := ["memory:checkpoint", "memory:auto", "project:" ++ projectSlug,
                 "session:" ++ sessionSlug, "checkpoint:" ++ kind]
        automation := "claude-hook"
        hook_event := hookEvent
        llm_summary := structured.map (fun st => (st.provider, st.model)) }
    source := "quick_capture"
    source_id := sourceId
    source_path := cwd
    mime_type := "text/markdown"
    return_id := false }

/-- One NDJSON audit-log line as written by `_append_ndjson` from
`_persist_checkpoint`. -/
structure LogRecord where
  timestamp : String
  event : String
  payload : CheckpointPayload
  response : Option JVal

/-- Embedding of `_persist_checkpoint`: build the payload, attempt the
remote post, and append exactly one audit record carrying the payload
and the response (or `None`).  Returns the `_ingest` result and the
list of audit records appended. -/
def persistCheckpoint (apiKey : String) (project sessionId cwd kind hookEvent : String)
    (recentEvents : List ToolEvent) (eventsSince : Int)
    (structured : Option StructuredSummary) (branch : Option String)
    (net : NetOutcome) (timestamp : String) : (Bool × Option JVal) × List LogRecord :=
  let payload := buildCheckpointPayload project sessionId cwd kind hookEvent
    recentEvents eventsSince structured branch timestamp
  let resp := ingest apiKey net
  (resp, [{ timestamp := timestamp, event := "auto_checkpoint",
            payload := payload, response := resp.2 }])

/-! ## Rollup builder: `_extract_summary_from_markdown`,
`_load_checkpoint_rows`, `_build_rollup_payload`
(auto_memory_hook.py:773,961,988) -/

/-- Line-collection loop of `_extract_summary_from_markdown`: stop at
the next `## ` header, keep stripped non-blank lines, stop once six are
collected. -/
def mdSummaryLoop (count : Nat) : List String → List String
  | [] => []
  | line :: rest =>
    if pyStartsWith "## " line then []
    else
      let s := pyStrip line
      if s = "" then mdSummaryLoop count rest
      else if count + 1 ≥ 6 then [s]
      else s :: mdSummaryLoop (count + 1) rest

/-- Embedding of `_extract_summary_from_markdown(content)`. -/
def extractSummaryFromMarkdown (content : String) : String :=
  if content = "" ∨ ¬(pyContains "## Summary" content) then ""
  else
    match pyFind "## Summary" content with
    | some idx =>
      let after := pyLstripNewline (dropStr (idx + 10) content)
      pyStrip (joinSep " " (mdSummaryLoop 0 (splitChar '\n' after)))
    | none => ""

/-- Embedding of `_load_checkpoint_rows(log_path, project=..., session_id=...)`:
keep the parsed NDJSON rows that are dicts carrying a dict `payload`
with a dict `metadata` whose `project` and `session_id` match. -/
def loadCheckpointRows (logLines : List (Option JVal)) (project sessionId : String) :
    List (List (String × JVal)) :=
  logLines.filterMap (fun l =>
    match l with
    | some (.obj row) =>
      match jget row "payload" with
      | some (.obj payload) =>
        match jget payload "metadata" with
        | some (.obj metadata) =>
          if (jget metadata "project").any (jvalIsStr · project) ∧
             (jget metadata "session_id").any (jvalIsStr · sessionId)
          then some row else none
        | _ => none
      | _ => none
    | _ => none)

/-- The six lists consolidated by `_build_rollup_payload`. -/
structure RollupLists where
  files_touched : List String
  checkpoints : List String
  checkpoint_summaries : List String
  decisions : List String
  open_questions : List String
  next_actions : List String

/-- Embedding of `if isinstance(value, str) and value.strip(): xs.append(value.strip())`. -/
def collectStrListStrip (it : List JVal) : List String :=
  it.filterMap (fun v =>
    match v with
    | .str s => if pyStrip s = "" then none else some (pyStrip s)
    | _ => none)

/-- Embedding of `if isinstance(value, str): xs.append(value)` (the `files_touched`
loop keeps the raw string). -/
def collectStrList (it : List JVal) : List String :=
  it.filterMap (fun v =>
    match v with
    | .str s => some s
    | _ => none)

/-- The object stored under a key, or `{}` when absent or not a dict
(`payload = row.get("payload") if isinstance(row.get("payload"), dict)
else {}`). -/
def jgetObj (fields : List (String × JVal)) (k : String) : List (String × JVal) :=
  match jget fields k with
  | some (.obj o) => o
  | _ => []

/-- The stripped title contribution of one rollup record. -/
def rollupTitleAdd (payload : List (String × JVal)) : List String :=
  match jget payload "title" with
  | some (.str t) => if pyStrip t = "" then [] else [pyStrip t]
  | _ => []

/-- The summary fallback extracted from the markdown body of one rollup
record. -/
def rollupFromContent (payload : List (String × JVal)) : List String :=
  match jget payload "content" with
  | some (.str c) =>
    if extractSummaryFromMarkdown c = "" then [] else [extractSummaryFromMarkdown c]
  | _ => []

/-- The checkpoint-summary contribution of one rollup record: the
stripped `metadata.summary` when it is a non-blank string, otherwise
the `## Summary` section extracted from the record's markdown body. -/
def rollupSummaryAdd (payload metadata : List (String × JVal)) : List String :=
  match jget metadata "summary" with
  | some (.str s) => if pyStrip s = "" then rollupFromContent payload else [pyStrip s]
  | _ => rollupFromContent payload

/-- One iteration of the record loop of `_build_rollup_payload`
(auto_memory_hook.py:998-1025); `none` models the uncaught `TypeError`
raised when a metadata list field is a non-iterable truthy value. -/
def rollupRowStep (acc : RollupLists) (row : List (String × JVal)) : Option RollupLists :=
  let payload := jgetObj row "payload"
  let titleAdd := rollupTitleAdd payload
  let metadata := jgetObj payload "metadata"
  let summaryAdd := rollupSummaryAdd payload metadata
  match pyIterOrEmpty (jget metadata "decisions") with
  | none => none
  | some dIter =>
    match pyIterOrEmpty (jget metadata "open_questions") with
    | none => none
    | some qIter =>
      match pyIterOrEmpty (jget metadata "next_actions") with
      | none => none
      | some nIter =>
        match pyIterOrEmpty (jget metadata "files_touched") with
        | none => none
        | some fIter =>
          some
            { files_touched := acc.files_touched ++ collectStrList fIter
              checkpoints := acc.checkpoints ++ titleAdd
              checkpoint_summaries := acc.checkpoint_summaries ++ summaryAdd
              decisions := acc.decisions ++ collectStrListStrip dIter
              open_questions := acc.open_questions ++ collectStrListStrip qIter
              next_actions := acc.next_actions ++ collectStrListStrip nIter }

/-- The record loop over all rows. -/
def rollupScan (acc : RollupLists) : List (List (String × JVal)) → Option RollupLists
  | [] => some acc
  | row :: rows =>
    match rollupRowStep acc row with
    | none => none
    | some acc2 => rollupScan acc2 rows

/-- Collection plus the `_dedupe` consolidation pass
(auto_memory_hook.py:1027-1032). -/
def rollupConsolidate (records : List (List (String × JVal))) : Option RollupLists :=
  (rollupScan ⟨[], [], [], [], [], []⟩ records).map (fun r =>
    { files_touched := dedupe r.files_touched
      checkpoints := dedupe r.checkpoints
      checkpoint_summaries := dedupe r.checkpoint_summaries
      decisions := dedupe r.decisions
      open_questions := dedupe r.open_questions
      next_actions := dedupe r.next_actions })

/-- The metadata map of a rollup document. -/
structure RollupMeta where
  project : String
  session_id : String
  checkpoint_kind : String
  timestamp : String
  summary : String
  decisions : List String
  open_questions : List String
  next_actions : List String
  tags : List String
  automation : String
  hook_event : String
  llm_summary : Option (String × String)

/-- A built rollup document. -/
structure RollupPayload where
  title : String
  content : String
  metadata : RollupMeta
  source : String
  source_id : String
  source_path : String
  mime_type : String
  return_id : Bool

/-- Embedding of `_build_rollup_payload(config, records)`; `structured`
is the `_generate_rollup_structured_summary` outcome (external LLM
call), `none` on the no-re-summarization path. -/
def buildRollupPayload (project sessionId cwd : String)
    (records : List (List (String × JVal))) (structured : Option StructuredSummary)
    (timestamp : String) : Option RollupPayload :=
  (rollupConsolidate records).map (fun c =>
    let projectSlug := slug project
    let sessionSlug := slug sessionId
    let defaultSummary :=
      "Automatic final rollup generated from checkpoint activity captured during this session."
    let rollupSummary :=
      match structured with
      | some st => if st.summary = "" then defaultSummary else st.summary
      | none => defaultSummary
    let decisions :=
      match structured with
      | some st => if st.decisions.isEmpty then c.decisions else st.decisions
      | none => c.decisions
    let openQuestions :=
      match structured with
      | some st => if st.open_questions.isEmpty then c.open_questions else st.open_questions
      | none => c.open_questions
    let nextActions :=
      match structured with
      | some st => if st.next_actions.isEmpty then c.next_actions else st.next_actions
      | none => c.next_actions
    let lines :=
      ["# Coding Session Rollup (Auto)",
       "- Project: " ++ project,
       "- Session: " ++ sessionId,
       "- Generated: " ++ timestamp,
       "- Checkpoints summarized: " ++ toString records.length,
       "",
       "## Summary",
       rollupSummary,
       ""]
      ++ mdSection "## Included Checkpoints" c.checkpoints
      ++ mdSection "## Files Touched" c.files_touched
      ++ mdSection "## Decisions" decisions
      ++ mdSection "## Open Questions" openQuestions
      ++ mdSection "## Next Actions" nextActions
    let sourceId := takeLeftStr 200 (removeChar '-' (removeChar ':'
      ("auto-rollup:" ++ projectSlug ++ ":" ++ sessionSlug ++ ":" ++ timestamp)))
    { title := project ++ " | " ++ sessionId ++ " | final rollup (auto)"
      content := pyStrip (joinSep "\n" lines)
      metadata :=
        { project := project
          session_id := sessionId
          checkpoint_kind := "final"
          timestamp := timestamp
          summary := rollupSummary
          decisions := decisions
          open_questions := openQuestions
          next_actions := nextActions
          tags := ["memory:checkpoint", "memory:rollup", "memory:auto",
                   "project:" ++ projectSlug, "session:" ++ sessionSlug, "checkpoint:final"]
          automation := "claude-hook"
          hook_event := "SessionEnd"
          llm_summary := structured.map (fun st => (st.provider, st.model)) }
      source := "quick_capture"
      source_id := sourceId
      source_path := cwd
      mime_type := "text/markdown"
      return_id := false })

/-! ## Hook handlers (auto_memory_hook.py:1190,1222,1247,1277)

The handlers run inside a cross-process lock; the state they load is
the well-typed state written by the system itself.  Each embedding
returns the state passed to `_save_state` together with a flag marking
whether `_persist_checkpoint` was invoked (which, by the
`persistCheckpoint` embedding, builds exactly one checkpoint document
and appends exactly one audit record).  Time is a rational parameter;
the milestone handlers take no interval/event thresholds because the
code never consults them there. -/

/-- The well-typed session state manipulated by the handlers. -/
structure HookState where
  project : String
  lastCheckpointEpoch : ℚ
  eventsSinceCheckpoint : Int
  recentEvents : List ToolEvent
  checkpointsCreated : Int
  lastRollupEpoch : ℚ
  transcriptPath : String

/-- The `transcript_path` refresh shared by all handlers. -/
def updateTranscript (st : HookState) (transcriptRaw : Option String) : HookState :=
  match transcriptRaw with
  | some t => if pyStrip t = "" then st else { st with transcriptPath := pyStrip t }
  | none => st

/-- Embedding of `_handle_post_tool_use` after a successful `_extract_tool_event`
(a payload without a usable tool name returns before touching state). -/
def handlePostToolUse (st : HookState) (project : String) (transcriptRaw : Option String)
    (event : ToolEvent) (now : ℚ) (minEvents intervalSeconds : Int) : HookState × Bool :=
  let st1 := updateTranscript { st with project := project } transcriptRaw
  let st2 := { st1 with
    recentEvents := takeLast 30 (st1.recentEvents ++ [event])
    eventsSinceCheckpoint := st1.eventsSinceCheckpoint + 1 }
  if shouldIntervalCheckpoint st2.eventsSinceCheckpoint st2.lastCheckpointEpoch now
      minEvents intervalSeconds then
    ({ st2 with
        lastCheckpointEpoch := now
        eventsSinceCheckpoint := 0
        recentEvents := []
        checkpointsCreated := st2.checkpointsCreated + 1 }, true)
  else (st2, false)

/-- Embedding of `_handle_task_completed`. -/
def handleTaskCompleted (st : HookState) (transcriptRaw : Option String) (now : ℚ) :
    HookState × Bool :=
  let st1 := updateTranscript st transcriptRaw
  if st1.eventsSinceCheckpoint ≤ 0 then (st1, false)
  else
    ({ st1 with
        lastCheckpointEpoch := now
        eventsSinceCheckpoint := 0
        recentEvents := []
        checkpointsCreated := st1.checkpointsCreated + 1 }, true)

/-- Embedding of `_handle_pre_compact`, with its repeat-trigger suppression window. -/
def handlePreCompact (st : HookState) (project : String) (transcriptRaw : Option String)
    (now : ℚ) : HookState × Bool :=
  let st1 := updateTranscript { st with project := project } transcriptRaw
  if st1.lastCheckpointEpoch > 0 ∧ st1.eventsSinceCheckpoint ≤ 0 ∧
      now - st1.lastCheckpointEpoch < 30 then
    (st1, false)
  else
    ({ st1 with
        lastCheckpointEpoch := now
        eventsSinceCheckpoint := 0
        recentEvents := []
        checkpointsCreated := st1.checkpointsCreated + 1 }, true)

/-- Embedding of `_handle_session_end`; the returned flag marks the milestone
checkpoint build (the rollup is a separate document kind). -/
def handleSessionEnd (st : HookState) (transcriptRaw : Option String) (now : ℚ)
    (rollupOnSessionEnd : Bool) : HookState × Bool :=
  let st1 := updateTranscript st transcriptRaw
  let built := st1.eventsSinceCheckpoint > 0
  let st2 := if built then { st1 with checkpointsCreated := st1.checkpointsCreated + 1 } else st1
  let st3 := if rollupOnSessionEnd then { st2 with lastRollupEpoch := now } else st2
  ({ st3 with lastCheckpointEpoch := now, eventsSinceCheckpoint := 0, recentEvents := [] }, built)

/-! ## Shared lemmas -/

theorem dropWhile_dropWhile_self (p : α → Bool) (l : List α) :
    (l.dropWhile p).dropWhile p = l.dropWhile p := by
  induction l with
  | nil => rfl
  | cons a l ih =>
    by_cases h : p a
    · simp only [List.dropWhile_cons, if_pos h, ih]
    · simp only [List.dropWhile_cons, if_neg h]

theorem head_dropWhile_false (p : α → Bool) (l : List α) (x : α) (xs : List α)
    (h : l.dropWhile p = x :: xs) : p x = false := by
  induction l with
  | nil => simp at h
  | cons a l ih =>
    rw [List.dropWhile_cons] at h
    by_cases hp : p a
    · rw [if_pos hp] at h
      exact ih h
    · rw [if_neg hp] at h
      injection h with h1 _
      subst h1
      exact Bool.eq_false_iff.mpr hp

theorem dropWhile_eq_self_of_head (p : α → Bool) (l : List α)
    (h : ∀ x xs, l = x :: xs → p x = false) : l.dropWhile p = l := by
  cases l with
  | nil => rfl
  | cons a t =>
    rw [List.dropWhile_cons, if_neg]
    simp [h a t rfl]

theorem getLast?_dropWhile (p : α → Bool) (l : List α) (h : l.dropWhile p ≠ []) :
    (l.dropWhile p).getLast? = l.getLast? := by
  induction l with
  | nil => simp at h
  | cons a l ih =>
    rw [List.dropWhile_cons] at h ⊢
    by_cases hp : p a
    · rw [if_pos hp] at h ⊢
      have hl : l ≠ [] := by
        intro he
        rw [he] at h
        simp at h
      rw [ih h]
      cases l with
      | nil => exact absurd rfl hl
      | cons b t => rw [List.getLast?_cons_cons]
    · rw [if_neg hp]

theorem pyStrip_idem (s : String) : pyStrip (pyStrip s) = pyStrip s := by
  unfold pyStrip
  congr 1
  set w := Char.isWhitespace with hw
  set D := s.data.dropWhile w with hD
  set E := D.reverse.dropWhile w with hE
  show ((((E.reverse : List Char)).dropWhile w).reverse.dropWhile w).reverse = E.reverse
  have step1 : (E.reverse : List Char).dropWhile w = E.reverse := by
    apply dropWhile_eq_self_of_head
    intro x xs hx
    have hEne : E ≠ [] := by
      intro he
      rw [he] at hx
      simp at hx
    have hlast : E.getLast? = some x := by
      have := congrArg List.head? hx
      rwa [List.head?_reverse, List.head?_cons] at this
    have hlastD : D.reverse.getLast? = some x := by
      rw [← getLast?_dropWhile w D.reverse (hE ▸ hEne), ← hE, hlast]
    have hheadD : D.head? = some x := by
      rwa [List.getLast?_reverse] at hlastD
    match hDx : D, hheadD with
    | y :: ys, hh =>
      rw [List.head?_cons] at hh
      injection hh with hh
      subst hh
      exact head_dropWhile_false w s.data y ys (hD ▸ hDx ▸ rfl)
  rw [step1, List.reverse_reverse, hE, dropWhile_dropWhile_self]

theorem pyStrip_data (s : String) :
    (pyStrip s).data =
      ((s.data.dropWhile Char.isWhitespace).reverse.dropWhile Char.isWhitespace).reverse := rfl

/-! First-seen de-duplication lemmas. -/

theorem firstSeenAux_mem (xs : List String) : ∀ (seen : List String) (y : String),
    y ∈ firstSeenAux seen xs ↔ (y ∈ xs ∧ y ∉ seen) := by
  induction xs with
  | nil => simp [firstSeenAux]
  | cons x xs ih =>
    intro seen y
    by_cases hx : x ∈ seen
    · rw [firstSeenAux, if_pos hx, ih]
      simp only [List.mem_cons]
      constructor
      · rintro ⟨h1, h2⟩
        exact ⟨Or.inr h1, h2⟩
      · rintro ⟨h1 | h1, h2⟩
        · exact absurd (h1 ▸ hx) h2
        · exact ⟨h1, h2⟩
    · rw [firstSeenAux, if_neg hx]
      simp only [List.mem_cons, ih]
      constructor
      · rintro (rfl | ⟨h1, h2⟩)
        · exact ⟨Or.inl rfl, hx⟩
        · exact ⟨Or.inr h1, fun hc => h2 (Or.inr hc)⟩
      · rintro ⟨rfl | h1, h2⟩
        · exact Or.inl rfl
        · by_cases hyx : y = x
          · exact Or.inl hyx
          · exact Or.inr ⟨h1, fun hc => hc.elim hyx h2⟩

theorem firstSeenAux_nodup (xs : List String) : ∀ seen : List String,
    (firstSeenAux seen xs).Nodup := by
  induction xs with
  | nil => intro seen; simp [firstSeenAux]
  | cons x xs ih =>
    intro seen
    by_cases hx : x ∈ seen
    · rw [firstSeenAux, if_pos hx]
      exact ih seen
    · rw [firstSeenAux, if_neg hx]
      refine List.nodup_cons.mpr ⟨?_, ih (x :: seen)⟩
      intro hc
      have := (firstSeenAux_mem xs (x :: seen) x).mp hc
      exact this.2 (List.mem_cons_self x seen)

theorem dedupeAux_eq_firstSeenAux (xs : List String) : ∀ seen : List String,
    dedupeAux seen xs = firstSeenAux seen ((xs.map pyStrip).filter (fun s => s ≠ "")) := by
  induction xs with
  | nil => intro seen; rfl
  | cons x xs ih =>
    intro seen
    by_cases h0 : pyStrip x = ""
    · simp only [dedupeAux, List.map_cons, List.filter_cons, h0]
      simpa using ih seen
    · by_cases h1 : pyStrip x ∈ seen
      · simp only [dedupeAux, List.map_cons, List.filter_cons, h0, h1]
        simp only [decide_not, if_pos (Or.inr h1)]
        simp [firstSeenAux, h0, h1, ih seen]
      · simp only [dedupeAux, List.map_cons, List.filter_cons]
        rw [if_neg (by simp [h0, h1]), if_pos (by simp [h0])]
        rw [firstSeenAux, if_neg h1, ih (pyStrip x :: seen)]

/-- The function `_dedupe` is exact-match first-seen de-duplication of
the stripped, non-empty items. -/
theorem dedupe_eq_firstSeen (xs : List String) :
    dedupe xs = firstSeenDedupe ((xs.map pyStrip).filter (fun s => s ≠ "")) :=
  dedupeAux_eq_firstSeenAux xs []

theorem map_eq_self_of (l : List α) (f : α → α) (h : ∀ x ∈ l, f x = x) :
    l.map f = l := by
  induction l with
  | nil => rfl
  | cons a t ih =>
    rw [List.map_cons, h a (List.mem_cons_self a t),
      ih (fun x hx => h x (List.mem_cons_of_mem a hx))]

theorem dedupe_of_stripped (xs : List String)
    (h : ∀ x ∈ xs, pyStrip x = x ∧ x ≠ "") :
    dedupe xs = firstSeenDedupe xs := by
  rw [dedupe_eq_firstSeen]
  congr 1
  rw [map_eq_self_of xs pyStrip (fun x hx => (h x hx).1)]
  exact List.filter_eq_self.mpr (fun a ha => by simp [(h a ha).2])

theorem dedupe_nodup (xs : List String) : (dedupe xs).Nodup := by
  rw [dedupe_eq_firstSeen]
  exact firstSeenAux_nodup _ []

theorem dedupe_mem (xs : List String) (y : String) (h : y ∈ dedupe xs) :
    ∃ x ∈ xs, y = pyStrip x := by
  rw [dedupe_eq_firstSeen] at h
  have h1 := ((firstSeenAux_mem _ [] y).mp h).1
  have h2 := List.mem_of_mem_filter h1
  rcases List.mem_map.mp h2 with ⟨x, hx, hxy⟩
  exact ⟨x, hx, hxy.symm⟩

theorem dedupeAux_length_le (xs : List String) : ∀ seen : List String,
    (dedupeAux seen xs).length ≤ xs.length := by
  induction xs with
  | nil => intro seen; simp [dedupeAux]
  | cons x xs ih =>
    intro seen
    rw [dedupeAux]
    by_cases h : pyStrip x = "" ∨ pyStrip x ∈ seen
    · rw [if_pos h]
      exact Nat.le_succ_of_le (ih seen)
    · rw [if_neg h]
      simpa using ih (pyStrip x :: seen)

/-! Sanitize-collection lemmas. -/

theorem sanitizeCollect_length (vs : List JVal) : ∀ (limit : Int) (collected : Nat),
    (collected : Int) < limit →
    ((sanitizeCollect limit collected vs).length : Int) ≤ limit - collected := by
  induction vs with
  | nil => intro limit collected _; simp [sanitizeCollect]; omega
  | cons v vs ih =>
    intro limit collected hlt
    cases v with
    | str s =>
      rw [sanitizeCollect]
      by_cases h0 : normalizeWs s = ""
      · rw [if_pos h0]
        exact ih limit collected hlt
      · rw [if_neg h0]
        by_cases h1 : ((collected : Int) + 1) ≥ limit
        · rw [if_pos h1]
          simp only [List.length_cons, List.length_nil]
          omega
        · rw [if_neg h1]
          have := ih limit (collected + 1) (by omega)
          simp only [List.length_cons]
          push_cast at this ⊢
          omega
    | null => exact ih limit collected hlt
    | bool b => exact ih limit collected hlt
    | num q => exact ih limit collected hlt
    | arr l => exact ih limit collected hlt
    | obj o => exact ih limit collected hlt

theorem sanitizeCollect_mem (vs : List JVal) : ∀ (limit : Int) (collected : Nat)
    (x : String), x ∈ sanitizeCollect limit collected vs →
    ∃ t, JVal.str t ∈ vs ∧ x = normalizeWs t := by
  induction vs with
  | nil => intro _ _ x hx; simp [sanitizeCollect] at hx
  | cons v vs ih =>
    intro limit collected x hx
    cases v with
    | str s =>
      rw [sanitizeCollect] at hx
      by_cases h0 : normalizeWs s = ""
      · rw [if_pos h0] at hx
        rcases ih limit collected x hx with ⟨t, ht, hxt⟩
        exact ⟨t, List.mem_cons_of_mem _ ht, hxt⟩
      · rw [if_neg h0] at hx
        by_cases h1 : ((collected : Int) + 1) ≥ limit
        · rw [if_pos h1] at hx
          rcases List.mem_singleton.mp hx with rfl
          exact ⟨s, List.mem_cons_self _ _, rfl⟩
        · rw [if_neg h1] at hx
          rcases List.mem_cons.mp hx with rfl | hmem
          · exact ⟨s, List.mem_cons_self _ _, rfl⟩
          · rcases ih limit (collected + 1) x hmem with ⟨t, ht, hxt⟩
            exact ⟨t, List.mem_cons_of_mem _ ht, hxt⟩
    | null =>
      rcases ih limit collected x hx with ⟨t, ht, hxt⟩
      exact ⟨t, List.mem_cons_of_mem _ ht, hxt⟩
    | bool b =>
      rcases ih limit collected x hx with ⟨t, ht, hxt⟩
      exact ⟨t, List.mem_cons_of_mem _ ht, hxt⟩
    | num q =>
      rcases ih limit collected x hx with ⟨t, ht, hxt⟩
      exact ⟨t, List.mem_cons_of_mem _ ht, hxt⟩
    | arr l =>
      rcases ih limit collected x hx with ⟨t, ht, hxt⟩
      exact ⟨t, List.mem_cons_of_mem _ ht, hxt⟩
    | obj o =>
      rcases ih limit collected x hx with ⟨t, ht, hxt⟩
      exact ⟨t, List.mem_cons_of_mem _ ht, hxt⟩

/-! Character-cap lemmas. -/

theorem capCutAdjust_length_le (e : String) : (capCutAdjust e).length ≤ e.length := by
  unfold capCutAdjust
  rcases pyFind "User: " e with _ | cut
  · exact Nat.le_refl _
  · dsimp only
    by_cases hc : cut > 0
    · rw [if_pos hc]
      exact dropStr_length_le _ _
    · rw [if_neg hc]

theorem pyStrip_capUserRealign_length_le (maxChars : Nat) (s : String) :
    (pyStrip (capUserRealign maxChars s)).length ≤ maxChars := by
  unfold capUserRealign
  by_cases h : s.length > maxChars
  · rw [if_pos h]
    calc (pyStrip (capCutAdjust (takeRightStr maxChars s))).length
        ≤ (capCutAdjust (takeRightStr maxChars s)).length := pyStrip_length_le _
      _ ≤ (takeRightStr maxChars s).length := capCutAdjust_length_le _
      _ ≤ maxChars := takeRightStr_length_le _ _
  · rw [if_neg h]
    calc (pyStrip s).length ≤ s.length := pyStrip_length_le _
      _ ≤ maxChars := by omega

/-! Handler field lemmas. -/

theorem updateTranscript_project (st : HookState) (tr : Option String) :
    (updateTranscript st tr).project = st.project := by
  unfold updateTranscript
  cases tr with
  | none => rfl
  | some t => by_cases h : pyStrip t = "" <;> simp [h]

theorem updateTranscript_lastCheckpointEpoch (st : HookState) (tr : Option String) :
    (updateTranscript st tr).lastCheckpointEpoch = st.lastCheckpointEpoch := by
  unfold updateTranscript
  cases tr with
  | none => rfl
  | some t => by_cases h : pyStrip t = "" <;> simp [h]

theorem updateTranscript_eventsSinceCheckpoint (st : HookState) (tr : Option String) :
    (updateTranscript st tr).eventsSinceCheckpoint = st.eventsSinceCheckpoint := by
  unfold updateTranscript
  cases tr with
  | none => rfl
  | some t => by_cases h : pyStrip t = "" <;> simp [h]

theorem updateTranscript_recentEvents (st : HookState) (tr : Option String) :
    (updateTranscript st tr).recentEvents = st.recentEvents := by
  unfold updateTranscript
  cases tr with
  | none => rfl
  | some t => by_cases h : pyStrip t = "" <;> simp [h]

theorem updateTranscript_checkpointsCreated (st : HookState) (tr : Option String) :
    (updateTranscript st tr).checkpointsCreated = st.checkpointsCreated := by
  unfold updateTranscript
  cases tr with
  | none => rfl
  | some t => by_cases h : pyStrip t = "" <;> simp [h]

theorem takeLast_append_singleton (n : Nat) (hn : 0 < n) (l : List α) (e : α) :
    takeLast n (l ++ [e]) = l.drop (l.length + 1 - n) ++ [e] := by
  unfold takeLast
  rw [List.length_append, List.length_cons, List.length_nil,
    List.drop_append_of_le_length (by omega)]

/-! ## Claim theorems -/

/-- C1 (counterexample): the claimed trigger condition reads "elapsed
time since the last checkpoint exceeds `interval_seconds`" (strict),
but `_should_interval_checkpoint` fires already when the elapsed time
equals `interval_seconds`: with `min_events = 4`,
`interval_seconds = 1200`, 4 accumulated events, a last checkpoint at
epoch 100 and the clock at exactly 1300, the code fires while the
claimed condition is false. -/
theorem c1_interval_trigger_counterexample :
    shouldIntervalCheckpoint 4 100 1300 4 1200 = true ∧
    ¬ claimedIntervalTrigger 4 100 1300 4 1200 := by
  constructor
  · norm_num [shouldIntervalCheckpoint]
  · intro h
    rcases h.2 with h2 | h2 | h2
    · norm_num at h2
    · norm_num at h2
    · omega

/-- C1 (amended): the interval trigger fires iff at least `min_events`
events accumulated AND (no checkpoint has ever happened
(`last_checkpoint_epoch ≤ 0`), OR the elapsed time since the last
checkpoint is at least `interval_seconds` (the code compares with `>=`,
not strictly), OR accumulated events reach `2 × min_events`); in
particular it never fires below `min_events`, regardless of elapsed
time. -/
theorem c1_interval_trigger_policy (eventsSince : Int) (lastEpoch now : ℚ)
    (minEvents intervalSeconds : Int) :
    (shouldIntervalCheckpoint eventsSince lastEpoch now minEvents intervalSeconds = true ↔
      (eventsSince ≥ minEvents ∧
        (lastEpoch ≤ 0 ∨ now - lastEpoch ≥ (intervalSeconds : ℚ) ∨
          eventsSince ≥ 2 * minEvents))) ∧
    (eventsSince < minEvents →
      shouldIntervalCheckpoint eventsSince lastEpoch now minEvents intervalSeconds = false) := by
  constructor
  · unfold shouldIntervalCheckpoint
    by_cases h1 : eventsSince < minEvents
    · rw [if_pos h1]
      simp only [Bool.false_eq_true, false_iff]
      rintro ⟨hge, -⟩
      omega
    · rw [if_neg h1]
      by_cases h2 : lastEpoch ≤ 0
      · rw [if_pos h2]
        simp only [true_iff]
        exact ⟨by omega, Or.inl h2⟩
      · rw [if_neg h2]
        simp only [Bool.or_eq_true, decide_eq_true_eq]
        constructor
        · rintro (h | h)
          · exact ⟨by omega, Or.inr (Or.inl h)⟩
          · exact ⟨by omega, Or.inr (Or.inr (by omega))⟩
        · rintro ⟨hge, h2' | hel | hb⟩
          · exact absurd h2' h2
          · exact Or.inl hel
          · exact Or.inr (by omega)
  · intro h
    unfold shouldIntervalCheckpoint
    rw [if_pos h]

/-- Witness for C1: below the floor the trigger is off; at the floor
with no prior checkpoint it fires. -/
theorem c1_interval_trigger_policy_witness :
    shouldIntervalCheckpoint 3 0 0 4 1200 = false ∧
    shouldIntervalCheckpoint 5 0 0 4 1200 = true :=
  ⟨(c1_interval_trigger_policy 3 0 0 4 1200).2 (by norm_num),
   (c1_interval_trigger_policy 5 0 0 4 1200).1.mpr
     ⟨by norm_num, Or.inl (by norm_num)⟩⟩

/-- C3: `_load_state` returns the fresh default state for the active
session, without raising, on a missing file, an unreadable file
(`OSError`), malformed JSON, a non-dict JSON value, and on a stored
`session_id` different from the active session's id — in the last case
none of the stored fields is merged into the result.  The claim's
"never raises for every stored file content" is however violated by the
code: a state file whose bytes are not valid UTF-8 makes
`path.read_text(encoding="utf-8")` raise `UnicodeDecodeError`, which
the `except (OSError, json.JSONDecodeError)` clause does not catch, so
the exception escapes (`loadState .undecodable sessionId = none`)
instead of the corruption being treated as "start over". -/
theorem c3_load_state_decode_gap (sessionId : String) :
    loadState .missing sessionId = some (defaultJState sessionId) ∧
    loadState .unreadable sessionId = some (defaultJState sessionId) ∧
    loadState .malformedJson sessionId = some (defaultJState sessionId) ∧
    loadState .nonDict sessionId = some (defaultJState sessionId) ∧
    (∀ (d : ParsedState) (v : JVal), d.session_id = some v →
      jvalIsStr v sessionId = false →
      loadState (.dict d) sessionId = some (defaultJState sessionId)) ∧
    loadState .undecodable sessionId = none := by
  refine ⟨rfl, rfl, rfl, rfl, ?_, rfl⟩
  intro d v hdv hne
  unfold loadState mergeState
  dsimp only
  rw [hdv]
  simp only [Option.getD_some, hne, Bool.false_eq_true, if_false]
  rfl

/-- Witness for C3: a stored dict for session "other" is discarded
wholesale when the active session is "active". -/
theorem c3_load_state_decode_gap_witness :
    loadState (.dict { session_id := some (.str "other"),
                       events_since_checkpoint := some (.num 7) }) "active" =
      some (defaultJState "active") :=
  (c3_load_state_decode_gap "active").2.2.2.2.1
    { session_id := some (.str "other"), events_since_checkpoint := some (.num 7) }
    (.str "other") rfl rfl

/-- C5: the provider selector returns a forced provider exactly when it
is available, returns none (no auto-detection fallback) when the forced
provider is unavailable, and otherwise returns the first available
entry of [claude_cli, codex_cli, anthropic, openai] — none when none is
available. -/
theorem c5_provider_selection (env : ProviderEnv) (forcedRaw : String) :
    (∀ f, normalizeProvider forcedRaw = some f →
      (providerAvailable env f = true → selectLlmProvider env forcedRaw = some f) ∧
      (providerAvailable env f = false → selectLlmProvider env forcedRaw = none)) ∧
    (normalizeProvider forcedRaw = none →
      selectLlmProvider env forcedRaw = providerOrder.find? (providerAvailable env) ∧
      ((∀ p ∈ providerOrder, providerAvailable env p = false) →
        selectLlmProvider env forcedRaw = none)) := by
  constructor
  · intro f hf
    constructor
    · intro hav
      unfold selectLlmProvider
      rw [hf]
      dsimp only
      rw [if_pos hav]
    · intro hav
      unfold selectLlmProvider
      rw [hf]
      dsimp only
      rw [if_neg (by simp [hav])]
  · intro hn
    refine ⟨?_, ?_⟩
    · unfold selectLlmProvider
      rw [hn]
    · intro hall
      unfold selectLlmProvider
      rw [hn]
      exact List.find?_eq_none.mpr (fun p hp => by simp [hall p hp])

/-- Witness for C5: forced-and-available, forced-but-unavailable (no
fallback even though codex is on the path), auto-detection order, and
the all-unavailable case. -/
theorem c5_provider_selection_witness :
    selectLlmProvider ⟨true, false, "", ""⟩ "claude" = some "claude_cli" ∧
    selectLlmProvider ⟨false, true, "", ""⟩ "claude" = none ∧
    selectLlmProvider ⟨false, true, "", ""⟩ "" = some "codex_cli" ∧
    selectLlmProvider ⟨false, false, "", ""⟩ "" = none :=
  ⟨((c5_provider_selection ⟨true, false, "", ""⟩ "claude").1 "claude_cli" rfl).1 rfl,
   ((c5_provider_selection ⟨false, true, "", ""⟩ "claude").1 "claude_cli" rfl).2 rfl,
   by rw [((c5_provider_selection ⟨false, true, "", ""⟩ "").2 rfl).1]; rfl,
   ((c5_provider_selection ⟨false, false, "", ""⟩ "").2 rfl).2 (by decide)⟩

theorem dedupe_mem_ne (xs : List String) (y : String) (h : y ∈ dedupe xs) : y ≠ "" := by
  rw [dedupe_eq_firstSeen] at h
  have h1 := ((firstSeenAux_mem _ [] y).mp h).1
  have h2 := List.of_mem_filter h1
  simpa using h2

/-- C10: `_sanitize_items` returns at most `limit` strings for a
positive limit, with no duplicates, each non-empty and
whitespace-normalized; and because truncation to `limit` happens before
de-duplication, the result can hold fewer than `limit` distinct items
even when further distinct items appear later in the input (concretely:
["a", "a", "b"] with limit 2 yields just ["a"]). -/
theorem c10_sanitize_items (items : Option JVal) (limit : Int) (hpos : 0 < limit) :
    ((sanitizeItems items limit).length : Int) ≤ limit ∧
    (sanitizeItems items limit).Nodup ∧
    (∀ s ∈ sanitizeItems items limit, s ≠ "" ∧ ∃ t, s = pyStrip (normalizeWs t)) ∧
    sanitizeItems (some (.arr [.str "a", .str "a", .str "b"])) 2 = ["a"] := by
  refine ⟨?_, ?_, ?_, by decide⟩
  · unfold sanitizeItems
    match items with
    | none => simp; omega
    | some .null => simp; omega
    | some (.bool b) => simp; omega
    | some (.num q) => simp; omega
    | some (.str s) => simp; omega
    | some (.obj o) => simp; omega
    | some (.arr xs) =>
      calc ((dedupe (sanitizeCollect limit 0 xs)).length : Int)
          ≤ ((sanitizeCollect limit 0 xs).length : Int) := by
            exact_mod_cast dedupeAux_length_le _ []
        _ ≤ limit - 0 := sanitizeCollect_length xs limit 0 (by omega)
        _ ≤ limit := by omega
  · unfold sanitizeItems
    match items with
    | none => simp
    | some .null => simp
    | some (.bool b) => simp
    | some (.num q) => simp
    | some (.str s) => simp
    | some (.obj o) => simp
    | some (.arr xs) => exact dedupe_nodup _
  · intro s hs
    unfold sanitizeItems at hs
    match items, hs with
    | some (.arr xs), hs =>
      refine ⟨dedupe_mem_ne _ s hs, ?_⟩
      rcases dedupe_mem _ s hs with ⟨x, hx, hsx⟩
      rcases sanitizeCollect_mem xs limit 0 x hx with ⟨t, -, hxt⟩
      exact ⟨t, by rw [hsx, hxt]⟩

/-- Witness for C10 at a concrete input needing normalization and
de-duplication. -/
theorem c10_sanitize_items_witness :
    ((sanitizeItems (some (.arr [.str " x  y ", .str "x y"])) 3).length : Int) ≤ 3 ∧
    (sanitizeItems (some (.arr [.str " x  y ", .str "x y"])) 3).Nodup ∧
    (∀ s ∈ sanitizeItems (some (.arr [.str " x  y ", .str "x y"])) 3,
      s ≠ "" ∧ ∃ t, s = pyStrip (normalizeWs t)) ∧
    sanitizeItems (some (.arr [.str "a", .str "a", .str "b"])) 2 = ["a"] :=
  c10_sanitize_items (some (.arr [.str " x  y ", .str "x y"])) 3 (by norm_num)

theorem handleTaskCompleted_snd (st : HookState) (tr : Option String) (now : ℚ) :
    (handleTaskCompleted st tr now).2 = !decide (st.eventsSinceCheckpoint ≤ 0) := by
  unfold handleTaskCompleted
  by_cases h : (updateTranscript st tr).eventsSinceCheckpoint ≤ 0
  · rw [if_pos h]
    rw [updateTranscript_eventsSinceCheckpoint] at h
    simp [h]
  · rw [if_neg h]
    rw [updateTranscript_eventsSinceCheckpoint] at h
    simp [h]

theorem handlePreCompact_cond (st : HookState) (project : String) (tr : Option String)
    (now : ℚ) :
    ((updateTranscript { st with project := project } tr).lastCheckpointEpoch > 0 ∧
      (updateTranscript { st with project := project } tr).eventsSinceCheckpoint ≤ 0 ∧
      now - (updateTranscript { st with project := project } tr).lastCheckpointEpoch < 30) ↔
    (st.lastCheckpointEpoch > 0 ∧ st.eventsSinceCheckpoint ≤ 0 ∧
      now - st.lastCheckpointEpoch < 30) := by
  rw [updateTranscript_lastCheckpointEpoch, updateTranscript_eventsSinceCheckpoint]

theorem handlePreCompact_snd (st : HookState) (project : String) (tr : Option String)
    (now : ℚ) :
    (handlePreCompact st project tr now).2 =
      !decide (st.lastCheckpointEpoch > 0 ∧ st.eventsSinceCheckpoint ≤ 0 ∧
        now - st.lastCheckpointEpoch < 30) := by
  unfold handlePreCompact
  by_cases h : st.lastCheckpointEpoch > 0 ∧ st.eventsSinceCheckpoint ≤ 0 ∧
      now - st.lastCheckpointEpoch < 30
  · rw [if_pos ((handlePreCompact_cond st project tr now).mpr h)]
    simp [h]
  · rw [if_neg (fun hc => h ((handlePreCompact_cond st project tr now).mp hc))]
    simp [h]

theorem handleSessionEnd_snd (st : HookState) (tr : Option String) (now : ℚ)
    (rollupOnSessionEnd : Bool) :
    (handleSessionEnd st tr now rollupOnSessionEnd).2 =
      decide (st.eventsSinceCheckpoint > 0) := by
  unfold handleSessionEnd
  dsimp only
  rw [updateTranscript_eventsSinceCheckpoint]

/-- C2: every milestone handler (task completion, pre-compaction,
session end) builds and persists a checkpoint document whenever
`events_since_checkpoint > 0`, without consulting the interval
thresholds (the milestone handlers take none); and a milestone signal
arriving with no new activity (`events_since_checkpoint = 0`) within
the 30-second suppression window after the last checkpoint builds no
new checkpoint document in any of the three handlers. -/
theorem c2_milestone_triggers (st : HookState) (project : String) (tr : Option String)
    (now : ℚ) (rollupOnSessionEnd : Bool) :
    (0 < st.eventsSinceCheckpoint →
      (handleTaskCompleted st tr now).2 = true ∧
      (handlePreCompact st project tr now).2 = true ∧
      (handleSessionEnd st tr now rollupOnSessionEnd).2 = true) ∧
    (st.eventsSinceCheckpoint = 0 → 0 < st.lastCheckpointEpoch →
      now - st.lastCheckpointEpoch < 30 →
      (handleTaskCompleted st tr now).2 = false ∧
      (handlePreCompact st project tr now).2 = false ∧
      (handleSessionEnd st tr now rollupOnSessionEnd).2 = false) := by
  constructor
  · intro h
    refine ⟨?_, ?_, ?_⟩
    · rw [handleTaskCompleted_snd]
      simp only [Bool.not_eq_true']
      exact decide_eq_false (by omega)
    · rw [handlePreCompact_snd]
      simp only [Bool.not_eq_true']
      exact decide_eq_false (fun hc => by omega)
    · rw [handleSessionEnd_snd]
      exact decide_eq_true h
  · intro h0 hl hw
    refine ⟨?_, ?_, ?_⟩
    · rw [handleTaskCompleted_snd]
      simp only [Bool.not_eq_false']
      exact decide_eq_true (by omega)
    · rw [handlePreCompact_snd]
      simp only [Bool.not_eq_false']
      exact decide_eq_true ⟨hl, by omega, hw⟩
    · rw [handleSessionEnd_snd]
      exact decide_eq_false (by omega)

/-- Witness for C2: three pending events fire every milestone handler;
a repeat signal 10 seconds after a checkpoint with no new activity is
suppressed everywhere. -/
theorem c2_milestone_triggers_witness :
    ((handleTaskCompleted ⟨"p", 100, 3, [], 0, 0, ""⟩ none 110).2 = true ∧
      (handlePreCompact ⟨"p", 100, 3, [], 0, 0, ""⟩ "p" none 110).2 = true ∧
      (handleSessionEnd ⟨"p", 100, 3, [], 0, 0, ""⟩ none 110 true).2 = true) ∧
    ((handleTaskCompleted ⟨"p", 100, 0, [], 0, 0, ""⟩ none 110).2 = false ∧
      (handlePreCompact ⟨"p", 100, 0, [], 0, 0, ""⟩ "p" none 110).2 = false ∧
      (handleSessionEnd ⟨"p", 100, 0, [], 0, 0, ""⟩ none 110 true).2 = false) :=
  ⟨(c2_milestone_triggers ⟨"p", 100, 3, [], 0, 0, ""⟩ "p" none 110 true).1 (by norm_num),
   (c2_milestone_triggers ⟨"p", 100, 0, [], 0, 0, ""⟩ "p" none 110 true).2 rfl
     (by norm_num) (by norm_num)⟩

/-- C9: after `_handle_post_tool_use` the persisted `recent_events` is
the most-recent-last window of at most 30 entries — the new event is
appended at the end and only the 30 most recent survive — and every
handler that persists a checkpoint resets the list to empty; handlers
that do not touch the window preserve the ≤ 30 bound. -/
theorem c9_recent_events_window (st : HookState) (project : String) (tr : Option String)
    (event : ToolEvent) (now : ℚ) (minEvents intervalSeconds : Int)
    (rollupOnSessionEnd : Bool) :
    ((handlePostToolUse st project tr event now minEvents intervalSeconds).1.recentEvents.length
      ≤ 30) ∧
    ((handlePostToolUse st project tr event now minEvents intervalSeconds).2 = false →
      (handlePostToolUse st project tr event now minEvents intervalSeconds).1.recentEvents =
        takeLast 30 (st.recentEvents ++ [event]) ∧
      (handlePostToolUse st project tr event now minEvents
          intervalSeconds).1.recentEvents.getLast? = some event) ∧
    ((handlePostToolUse st project tr event now minEvents intervalSeconds).2 = true →
      (handlePostToolUse st project tr event now minEvents intervalSeconds).1.recentEvents = []) ∧
    (st.recentEvents.length ≤ 30 →
      (handleTaskCompleted st tr now).1.recentEvents.length ≤ 30 ∧
      (handlePreCompact st project tr now).1.recentEvents.length ≤ 30) ∧
    ((handleTaskCompleted st tr now).2 = true →
      (handleTaskCompleted st tr now).1.recentEvents = []) ∧
    ((handlePreCompact st project tr now).2 = true →
      (handlePreCompact st project tr now).1.recentEvents = []) ∧
    (handleSessionEnd st tr now rollupOnSessionEnd).1.recentEvents = [] := by
  have hrec : (updateTranscript { st with project := project } tr).recentEvents =
      st.recentEvents := by
    rw [updateTranscript_recentEvents]
  have hrec2 : (updateTranscript st tr).recentEvents = st.recentEvents :=
    updateTranscript_recentEvents st tr
  refine ⟨?_, ?_, ?_, ?_, ?_, ?_, ?_⟩
  · unfold handlePostToolUse
    dsimp only
    split
    · simp
    · simpa [hrec] using takeLast_length_le 30 (st.recentEvents ++ [event])
  · unfold handlePostToolUse
    dsimp only
    split
    · intro hcon
      simp at hcon
    · intro _
      rw [hrec]
      refine ⟨rfl, ?_⟩
      rw [takeLast_append_singleton 30 (by norm_num), List.getLast?_concat]
  · unfold handlePostToolUse
    dsimp only
    split
    · intro _
      rfl
    · intro hcon
      simp at hcon
  · intro hlen
    constructor
    · unfold handleTaskCompleted
      dsimp only
      split
      · simpa [hrec2] using hlen
      · simp
    · unfold handlePreCompact
      dsimp only
      split
      · simpa [hrec] using hlen
      · simp
  · unfold handleTaskCompleted
    dsimp only
    split
    · intro hcon
      simp at hcon
    · intro _
      rfl
  · unfold handlePreCompact
    dsimp only
    split
    · intro hcon
      simp at hcon
    · intro _
      rfl
  · unfold handleSessionEnd
    dsimp only

/-- Witness for C9: a state carrying 30 prior events receives one more
below the trigger floor — the window stays at 30, most recent last. -/
theorem c9_recent_events_window_witness :
    (handleTaskCompleted ⟨"p", 0, 0, List.replicate 30 ⟨"t", "T", "s", []⟩, 0, 0, ""⟩
        none 0).1.recentEvents.length ≤ 30 ∧
    (handlePreCompact ⟨"p", 0, 0, List.replicate 30 ⟨"t", "T", "s", []⟩, 0, 0, ""⟩
        "p" none 0).1.recentEvents.length ≤ 30 :=
  (c9_recent_events_window ⟨"p", 0, 0, List.replicate 30 ⟨"t", "T", "s", []⟩, 0, 0, ""⟩
      "p" none ⟨"t", "T", "s", []⟩ 0 4 1200 true).2.2.2.1 (by simp)

/-- C4: with no API key `_ingest` performs no network request and
returns no response; any transport error or non-2xx HTTP status yields
no response without raising; and `_persist_checkpoint` appends exactly
one audit record carrying the built payload and the response (or
`None`), whatever the network outcome. -/
theorem c4_ingest_gateway (apiKey : String) (net : NetOutcome) (code : Nat)
    (project sessionId cwd kind hookEvent : String) (recentEvents : List ToolEvent)
    (eventsSince : Int) (structured : Option StructuredSummary) (branch : Option String)
    (timestamp : String) :
    ingest "" net = (false, none) ∧
    (ingest apiKey (.httpError code)).2 = none ∧
    (ingest apiKey .transportError).2 = none ∧
    (persistCheckpoint apiKey project sessionId cwd kind hookEvent recentEvents eventsSince
        structured branch net timestamp).2 =
      [{ timestamp := timestamp, event := "auto_checkpoint",
         payload := buildCheckpointPayload project sessionId cwd kind hookEvent recentEvents
           eventsSince structured branch timestamp,
         response := (ingest apiKey net).2 }] := by
  refine ⟨rfl, ?_, ?_, rfl⟩
  · unfold ingest
    by_cases h : apiKey = "" <;> simp [h]
  · unfold ingest
    by_cases h : apiKey = "" <;> simp [h]

theorem ite_excerpt_bound (P : Prop) [Decidable P] (c : Int) (s : String) :
    (((if P then "" else pyStrip (capUserRealign ((max 500 c).toNat) s)).length : Nat) : Int)
      ≤ max 500 c := by
  have h0 : (0 : Int) ≤ max 500 c := le_trans (by norm_num) (le_max_left 500 c)
  by_cases hp : P
  · rw [if_pos hp]
    simpa using h0
  · rw [if_neg hp]
    calc ((pyStrip (capUserRealign ((max 500 c).toNat) s)).length : Int)
        ≤ (((max 500 c).toNat : Nat) : Int) := by
          exact_mod_cast pyStrip_capUserRealign_length_le ((max 500 c).toNat) s
      _ = max 500 c := Int.toNat_of_nonneg h0

/-- C6 (amended): for every transcript file and configured budgets, the
excerpt produced by either excerptor path never exceeds
`max 500 max_chars` characters — the effective budget after the
500-character floor both functions apply to the configured
`max_chars`. -/
theorem c6_excerpt_length_bound (file file2 : FileAccess)
    (rawHeadLines rawTailLines rawMaxMessages rawMaxChars rawMaxMessages2 rawMaxChars2 : Int) :
    ((readTranscriptExcerpt file rawHeadLines rawTailLines rawMaxMessages
        rawMaxChars).length : Int) ≤ max 500 rawMaxChars ∧
    ((readCodexTranscriptExcerpt file2 rawMaxMessages2 rawMaxChars2).length : Int)
      ≤ max 500 rawMaxChars2 := by
  have h0 : ∀ c : Int, (0 : Int) ≤ max 500 c :=
    fun c => le_trans (by norm_num) (le_max_left 500 c)
  constructor
  · unfold readTranscriptExcerpt
    cases file with
    | absentPath => simpa using h0 rawMaxChars
    | readError => simpa using h0 rawMaxChars
    | lines ls =>
      exact ite_excerpt_bound (ls.length = 0) rawMaxChars _
  · unfold readCodexTranscriptExcerpt
    cases file2 with
    | absentPath => simpa using h0 rawMaxChars2
    | readError => simpa using h0 rawMaxChars2
    | lines ls =>
      exact ite_excerpt_bound _ rawMaxChars2 _

/-- C6 (counterexample): with a configured `max_chars` of 100 (all other
budgets at their defaults), a transcript holding a single 144-character
user message yields a 150-character excerpt — the excerptor floors the
budget at 500 characters, so the excerpt exceeds the configured
`max_chars`. -/
theorem c6_excerpt_length_counterexample :
    (readTranscriptExcerpt
        (.lines [some (.obj [("type", .str "user"),
          ("message", .obj [("role", .str "user"),
            ("content", .str (String.mk (List.replicate 144 'a')))])])])
        120 600 80 100).length = 150 ∧ (100 : Nat) < 150 := by
  constructor
  · decide
  · norm_num

/-- C7: `_extract_json_object` strips code fences and tries a direct
parse of the cleaned text, falling back on a parse error to the span
from the first `\x7b` to the last `\x7d`; a parse failure or a
non-object parse yields no object, a missing or empty `summary` field
yields no structured summary (never an exception — all embedded
functions are total), and `_build_checkpoint_payload` then uses the
deterministic templated summary. `jparse` stands for `json.loads`. -/
theorem c7_response_parsing (jparse : String → Option JVal) (raw : String)
    (llmEnabled : Bool) (transcriptPath : String) (file : FileAccess)
    (hl tl mm mc : Int) (provider model : String) :
    (pyStrip raw ≠ "" → ∀ o, jparse (fenceCleaned raw) = some (.obj o) →
      extractJsonObject jparse raw = some o) ∧
    (∀ v, jparse (fenceCleaned raw) = some v → (∀ o, v ≠ .obj o) →
      extractJsonObject jparse raw = none) ∧
    (pyStrip raw ≠ "" → jparse (fenceCleaned raw) = none →
      ∀ s e o, pyFindChar '\x7b' (fenceCleaned raw) = some s →
        pyRfindChar '\x7d' (fenceCleaned raw) = some e → s < e →
        jparse (sliceStr s (e + 1) (fenceCleaned raw)) = some (.obj o) →
        extractJsonObject jparse raw = some o) ∧
    (extractJsonObject jparse raw = none →
      generateCheckpointStructuredSummary jparse llmEnabled transcriptPath file hl tl mm mc
        (some raw) provider model = none) ∧
    (∀ ss, generateCheckpointStructuredSummary jparse llmEnabled transcriptPath file hl tl mm mc
        (some raw) provider model = some ss →
      ∃ parsed s, extractJsonObject jparse raw = some parsed ∧
        jget parsed "summary" = some (.str s) ∧ pyStrip s ≠ "" ∧ ss.summary = pyStrip s) ∧
    (∀ (project sessionId cwd kind hookEvent : String) (recentEvents : List ToolEvent)
        (eventsSince : Int) (branch : Option String) (ts : String),
      (buildCheckpointPayload project sessionId cwd kind hookEvent recentEvents eventsSince
          none branch ts).metadata.summary =
        templatedSummary kind hookEvent (dedupe (recentEvents.flatMap (fun e => e.files)))
          eventsSince) := by
  refine ⟨?_, ?_, ?_, ?_, ?_, ?_⟩
  · intro hne o hp
    unfold extractJsonObject
    rw [if_neg hne]
    dsimp only
    rw [hp]
  · intro v hp hv
    unfold extractJsonObject
    by_cases hne : pyStrip raw = ""
    · rw [if_pos hne]
    · rw [if_neg hne]
      dsimp only
      rw [hp]
      cases v with
      | obj o => exact absurd rfl (hv o)
      | null => rfl
      | bool b => rfl
      | num q => rfl
      | str s => rfl
      | arr xs => rfl
  · intro hne hp s e o hs he hlt hspan
    unfold extractJsonObject
    rw [if_neg hne]
    dsimp only
    rw [hp]
    dsimp only
    rw [hs, he]
    dsimp only
    rw [if_neg (by omega : ¬ e ≤ s), hspan]
  · intro hex
    unfold generateCheckpointStructuredSummary
    by_cases h1 : ¬llmEnabled = true ∨ transcriptPath = ""
    · rw [if_pos h1]
    · rw [if_neg h1]
      dsimp only
      by_cases h2 : readTranscriptExcerpt file hl tl mm mc = ""
      · rw [if_pos h2]
      · rw [if_neg h2]
        by_cases h3 : raw = "" ∨ provider = "" ∨ model = ""
        · rw [if_pos h3]
        · rw [if_neg h3, hex]
  · intro ss hss
    unfold generateCheckpointStructuredSummary at hss
    by_cases h1 : ¬llmEnabled = true ∨ transcriptPath = ""
    · rw [if_pos h1] at hss
      exact absurd hss (by simp)
    · rw [if_neg h1] at hss
      dsimp only at hss
      by_cases h2 : readTranscriptExcerpt file hl tl mm mc = ""
      · rw [if_pos h2] at hss
        exact absurd hss (by simp)
      · rw [if_neg h2] at hss
        by_cases h3 : raw = "" ∨ provider = "" ∨ model = ""
        · rw [if_pos h3] at hss
          exact absurd hss (by simp)
        · rw [if_neg h3] at hss
          rcases hE : extractJsonObject jparse raw with _ | parsed
          · rw [hE] at hss
            exact absurd hss (by simp)
          · rw [hE] at hss
            dsimp only at hss
            by_cases h4 : parsed.isEmpty
            · rw [if_pos h4] at hss
              exact absurd hss (by simp)
            · rw [if_neg h4] at hss
              rcases hS : jget parsed "summary" with _ | v
              · rw [hS] at hss
                dsimp only at hss
                exact absurd hss (by simp)
              · rw [hS] at hss
                cases v with
                | str s =>
                  dsimp only at hss
                  by_cases h5 : pyStrip s = ""
                  · rw [if_pos h5] at hss
                    exact absurd hss (by simp)
                  · rw [if_neg h5] at hss
                    injection hss with hss
                    exact ⟨parsed, s, rfl, hS, h5, by rw [← hss]⟩
                | null => dsimp only at hss; exact absurd hss (by simp)
                | bool b => dsimp only at hss; exact absurd hss (by simp)
                | num q => dsimp only at hss; exact absurd hss (by simp)
                | arr xs => dsimp only at hss; exact absurd hss (by simp)
                | obj o => dsimp only at hss; exact absurd hss (by simp)
  · intro project sessionId cwd kind hookEvent recentEvents eventsSince branch ts
    rfl

/-- Witness for C7: a backend answering `not valid json` (with no brace
span) yields no structured summary. -/
theorem c7_response_parsing_witness :
    generateCheckpointStructuredSummary (fun _ => none) true "t" (.lines []) 120 600 80 12000
      (some "not valid json") "p" "m" = none :=
  (c7_response_parsing (fun _ => none) "not valid json" true "t" (.lines []) 120 600 80 12000
    "p" "m").2.2.2.1 rfl

theorem collectStrListStrip_stripped (it : List JVal) :
    ∀ x ∈ collectStrListStrip it, pyStrip x = x ∧ x ≠ "" := by
  intro x hx
  rcases List.mem_filterMap.mp hx with ⟨v, -, hfx⟩
  cases v with
  | str s =>
    dsimp only at hfx
    by_cases h : pyStrip s = ""
    · rw [if_pos h] at hfx
      exact absurd hfx (by simp)
    · rw [if_neg h] at hfx
      injection hfx with hfx
      subst hfx
      exact ⟨pyStrip_idem s, h⟩
  | null => exact absurd hfx (by simp)
  | bool b => exact absurd hfx (by simp)
  | num q => exact absurd hfx (by simp)
  | arr l => exact absurd hfx (by simp)
  | obj o => exact absurd hfx (by simp)

theorem extractSummaryFromMarkdown_stripped (c : String) :
    pyStrip (extractSummaryFromMarkdown c) = extractSummaryFromMarkdown c := by
  unfold extractSummaryFromMarkdown
  by_cases h : (c = "" ∨ ¬(pyContains "## Summary" c = true))
  · rw [if_pos h]
    decide
  · rw [if_neg h]
    rcases pyFind "## Summary" c with _ | idx
    · dsimp only
      decide
    · exact pyStrip_idem _

theorem rollupFromContent_stripped (payload : List (String × JVal)) :
    ∀ x ∈ rollupFromContent payload, pyStrip x = x ∧ x ≠ "" := by
  intro x hx
  unfold rollupFromContent at hx
  rcases hg : jget payload "content" with _ | v
  · rw [hg] at hx
    exact absurd hx (by simp)
  · rw [hg] at hx
    cases v with
    | str c =>
      dsimp only at hx
      by_cases h : extractSummaryFromMarkdown c = ""
      · rw [if_pos h] at hx
        exact absurd hx (by simp)
      · rw [if_neg h] at hx
        rcases List.mem_singleton.mp hx with rfl
        exact ⟨extractSummaryFromMarkdown_stripped c, h⟩
    | null => exact absurd hx (by simp)
    | bool b => exact absurd hx (by simp)
    | num q => exact absurd hx (by simp)
    | arr l => exact absurd hx (by simp)
    | obj o => exact absurd hx (by simp)

theorem rollupSummaryAdd_stripped (payload metadata : List (String × JVal)) :
    ∀ x ∈ rollupSummaryAdd payload metadata, pyStrip x = x ∧ x ≠ "" := by
  intro x hx
  unfold rollupSummaryAdd at hx
  rcases hg : jget metadata "summary" with _ | v
  · rw [hg] at hx
    exact rollupFromContent_stripped payload x hx
  · rw [hg] at hx
    cases v with
    | str s =>
      dsimp only at hx
      by_cases h : pyStrip s = ""
      · rw [if_pos h] at hx
        exact rollupFromContent_stripped payload x hx
      · rw [if_neg h] at hx
        rcases List.mem_singleton.mp hx with rfl
        exact ⟨pyStrip_idem s, h⟩
    | null => exact rollupFromContent_stripped payload x hx
    | bool b => exact rollupFromContent_stripped payload x hx
    | num q => exact rollupFromContent_stripped payload x hx
    | arr l => exact rollupFromContent_stripped payload x hx
    | obj o => exact rollupFromContent_stripped payload x hx

/-- Strip-invariant of the four stripped collection lists over one
record step. -/
theorem rollupRowStep_stripped (acc acc2 : RollupLists) (row : List (String × JVal))
    (h : rollupRowStep acc row = some acc2)
    (hd : ∀ x ∈ acc.decisions, pyStrip x = x ∧ x ≠ "")
    (hq : ∀ x ∈ acc.open_questions, pyStrip x = x ∧ x ≠ "")
    (hn : ∀ x ∈ acc.next_actions, pyStrip x = x ∧ x ≠ "")
    (hs : ∀ x ∈ acc.checkpoint_summaries, pyStrip x = x ∧ x ≠ "") :
    (∀ x ∈ acc2.decisions, pyStrip x = x ∧ x ≠ "") ∧
    (∀ x ∈ acc2.open_questions, pyStrip x = x ∧ x ≠ "") ∧
    (∀ x ∈ acc2.next_actions, pyStrip x = x ∧ x ≠ "") ∧
    (∀ x ∈ acc2.checkpoint_summaries, pyStrip x = x ∧ x ≠ "") := by
  unfold rollupRowStep at h
  dsimp only at h
  split at h
  · exact absurd h (by simp)
  · split at h
    · exact absurd h (by simp)
    · split at h
      · exact absurd h (by simp)
      · split at h
        · exact absurd h (by simp)
        · injection h with h
          subst h
          refine ⟨?_, ?_, ?_, ?_⟩
          · intro x hx
            rcases List.mem_append.mp hx with hx | hx
            · exact hd x hx
            · exact collectStrListStrip_stripped _ x hx
          · intro x hx
            rcases List.mem_append.mp hx with hx | hx
            · exact hq x hx
            · exact collectStrListStrip_stripped _ x hx
          · intro x hx
            rcases List.mem_append.mp hx with hx | hx
            · exact hn x hx
            · exact collectStrListStrip_stripped _ x hx
          · intro x hx
            rcases List.mem_append.mp hx with hx | hx
            · exact hs x hx
            · exact rollupSummaryAdd_stripped _ _ x hx

/-- Strip-invariant of the whole record scan. -/
theorem rollupScan_stripped (records : List (List (String × JVal))) :
    ∀ (acc r : RollupLists), rollupScan acc records = some r →
    (∀ x ∈ acc.decisions, pyStrip x = x ∧ x ≠ "") →
    (∀ x ∈ acc.open_questions, pyStrip x = x ∧ x ≠ "") →
    (∀ x ∈ acc.next_actions, pyStrip x = x ∧ x ≠ "") →
    (∀ x ∈ acc.checkpoint_summaries, pyStrip x = x ∧ x ≠ "") →
    (∀ x ∈ r.decisions, pyStrip x = x ∧ x ≠ "") ∧
    (∀ x ∈ r.open_questions, pyStrip x = x ∧ x ≠ "") ∧
    (∀ x ∈ r.next_actions, pyStrip x = x ∧ x ≠ "") ∧
    (∀ x ∈ r.checkpoint_summaries, pyStrip x = x ∧ x ≠ "") := by
  induction records with
  | nil =>
    intro acc r h hd hq hn hs
    rw [rollupScan] at h
    injection h with h
    subst h
    exact ⟨hd, hq, hn, hs⟩
  | cons row rows ih =>
    intro acc r h hd hq hn hs
    rw [rollupScan] at h
    split at h
    · exact absurd h (by simp)
    · rename_i acc2 hstep
      rcases rollupRowStep_stripped acc acc2 row hstep hd hq hn hs with ⟨hd2, hq2, hn2, hs2⟩
      exact ih acc2 r h hd2 hq2 hn2 hs2

/-- C8 (counterexample): the files-touched consolidation is not exact
string matching — a record carrying the two distinct strings
`" a.py"` and `"a.py"` consolidates to the single stripped entry
`"a.py"`, while exact-match first-seen de-duplication keeps both. -/
theorem c8_rollup_dedupe_counterexample :
    (rollupConsolidate [[("payload", .obj [("metadata", .obj
        [("project", .str "p"), ("session_id", .str "s"),
         ("files_touched", .arr [.str " a.py", .str "a.py"])])])]]).map
      RollupLists.files_touched = some ["a.py"] ∧
    firstSeenDedupe [" a.py", "a.py"] = [" a.py", "a.py"] ∧
    (["a.py"] : List String) ≠ [" a.py", "a.py"] := by
  refine ⟨by decide, by decide, by decide⟩

/-- C8 (amended): in a rollup with no structured LLM re-summarization,
each consolidated list holds each entry exactly once in first-seen
order across the records; decisions, open questions, next actions and
checkpoint summaries are de-duplicated by exact string match (their
collection already strips each item), while files touched are stripped
first and then de-duplicated by exact match of the stripped strings.
The de-duplicated lists are what the built rollup document's metadata
carries. -/
theorem c8_rollup_dedupe (records : List (List (String × JVal))) (r c : RollupLists)
    (hscan : rollupScan ⟨[], [], [], [], [], []⟩ records = some r)
    (hcons : rollupConsolidate records = some c) :
    c.decisions = firstSeenDedupe r.decisions ∧ c.decisions.Nodup ∧
    c.open_questions = firstSeenDedupe r.open_questions ∧ c.open_questions.Nodup ∧
    c.next_actions = firstSeenDedupe r.next_actions ∧ c.next_actions.Nodup ∧
    c.checkpoint_summaries = firstSeenDedupe r.checkpoint_summaries ∧
    c.checkpoint_summaries.Nodup ∧
    c.files_touched =
      firstSeenDedupe ((r.files_touched.map pyStrip).filter (fun s => s ≠ "")) ∧
    c.files_touched.Nodup ∧
    (∀ (project sessionId cwd ts : String) (p : RollupPayload),
      buildRollupPayload project sessionId cwd records none ts = some p →
      p.metadata.decisions = c.decisions ∧
      p.metadata.open_questions = c.open_questions ∧
      p.metadata.next_actions = c.next_actions) := by
  have hc : c =
      { files_touched := dedupe r.files_touched
        checkpoints := dedupe r.checkpoints
        checkpoint_summaries := dedupe r.checkpoint_summaries
        decisions := dedupe r.decisions
        open_questions := dedupe r.open_questions
        next_actions := dedupe r.next_actions } := by
    unfold rollupConsolidate at hcons
    rw [hscan] at hcons
    simp only [Option.map_some', Option.some.injEq] at hcons
    exact hcons.symm
  rcases rollupScan_stripped records _ r hscan
      (fun x hx => absurd hx (List.not_mem_nil x))
      (fun x hx => absurd hx (List.not_mem_nil x))
      (fun x hx => absurd hx (List.not_mem_nil x))
      (fun x hx => absurd hx (List.not_mem_nil x))
    with ⟨hd, hq, hn, hs⟩
  subst hc
  refine ⟨dedupe_of_stripped _ hd, dedupe_nodup _,
    dedupe_of_stripped _ hq, dedupe_nodup _,
    dedupe_of_stripped _ hn, dedupe_nodup _,
    dedupe_of_stripped _ hs, dedupe_nodup _,
    dedupe_eq_firstSeen _, dedupe_nodup _, ?_⟩
  intro project sessionId cwd ts p hp
  unfold buildRollupPayload at hp
  rw [hcons] at hp
  simp only [Option.map_some', Option.some.injEq] at hp
  subst hp
  exact ⟨rfl, rfl, rfl⟩

/-- The three-record rollup scenario: overlapping decision strings
across records. -/
def c8DemoRecords : List (List (String × JVal)) :=
  [[("payload", .obj [("metadata", .obj [("project", .str "p"), ("session_id", .str "s"),
      ("decisions", .arr [.str "keep x", .str "drop y"])])])],
   [("payload", .obj [("metadata", .obj [("project", .str "p"), ("session_id", .str "s"),
      ("decisions", .arr [.str "drop y", .str "add z"])])])],
   [("payload", .obj [("metadata", .obj [("project", .str "p"), ("session_id", .str "s"),
      ("decisions", .arr [.str "keep x"])])])]]

/-- Witness for C8: the three-record scenario consolidates the five
collected decision strings to each unique string exactly once, in
first-seen order. -/
theorem c8_rollup_dedupe_witness :
    (["keep x", "drop y", "add z"] : List String) =
      firstSeenDedupe ["keep x", "drop y", "drop y", "add z", "keep x"] ∧
    (["keep x", "drop y", "add z"] : List String).Nodup :=
  ⟨(c8_rollup_dedupe c8DemoRecords
      ⟨[], [], [], ["keep x", "drop y", "drop y", "add z", "keep x"], [], []⟩
      ⟨[], [], [], ["keep x", "drop y", "add z"], [], []⟩
      rfl rfl).1,
   (c8_rollup_dedupe c8DemoRecords
      ⟨[], [], [], ["keep x", "drop y", "drop y", "add z", "keep x"], [], []⟩
      ⟨[], [], [], ["keep x", "drop y", "add z"], [], []⟩
      rfl rfl).2.1⟩

end RememMemory
